import Mathlib

/-!
Verification of the ERC3643 (T-REX) Solana token program's instruction
processor against its natural-language specification.

The development shallowly embeds the Rust sources
(`src/processor.rs`, `src/state.rs`, `src/instruction.rs`, `src/error.rs`)
into Lean:

* `Pubkey` is modelled as `Nat`; `u64`/`u8`/`u16` values are `Nat` with
  checked arithmetic made explicit (`checkedAdd` / `checkedSub` mirror
  Rust's `checked_add` / `checked_sub`; an `unwrap` of `None` — a Rust
  panic aborting the whole transaction — is modelled as the error
  `ProgError.arithmeticPanic`).
* An account's data buffer is modelled at the record level: `AccountData`
  holds the decoded record, and the `unpack*` functions mirror
  `Pack::unpack` (wrong record shape → `InvalidAccountData`, uninitialized
  record → `UninitializedAccount`).  `Pack::pack` never fails after the
  corresponding `unpack` succeeded (the buffer length was already checked),
  so writes are modelled as infallible `writeAccount` updates.
* Each `process_*` handler returns `Except ProgError Unit × List AccountInfo`:
  the first component is the Rust `ProgramResult`, the second the account
  list as left behind by the invocation (errors return the account list as
  it was at the point of failure, so partial writes would be observable).
* Instruction decoding (`decodeInstruction`) mirrors Borsh deserialization
  of the `TokenInstruction` enum: one tag byte, little-endian integers,
  length-prefixed UTF-8 strings, and rejection of trailing bytes.  A Borsh
  failure surfaces as `ProgError.borshIoError`, exactly as
  `TokenInstruction::try_from_slice(input)?` converts the `std::io::Error`
  into `ProgramError::BorshIoError`.
* Rust `String` fields are modelled as UTF-8 byte lists (`List Nat`).
-/

namespace Erc3643

/-- Public keys (Solana `Pubkey`), modelled as natural numbers. -/
abbrev Pubkey := Nat

/-- Largest value representable in a `u64`. -/
def U64_MAX : Nat := 18446744073709551615

/-- Rust `u64::checked_add`: `none` exactly when the sum leaves `u64` range. -/
def checkedAdd (a b : Nat) : Option Nat :=
  if a + b ≤ U64_MAX then some (a + b) else none

/-- Rust `u64::checked_sub`: `none` exactly when the subtraction would underflow. -/
def checkedSub (a b : Nat) : Option Nat :=
  if b ≤ a then some (a - b) else none

/-- The `TokenError` enum of `src/error.rs`, in declaration order. -/
inductive TokenError where
  | InvalidInstruction
  | NotRentExempt
  | IncorrectProgramId
  | InvalidOwner
  | IdentityNotVerified
  | AddressFrozen
  | TransferNotCompliant
  | Unauthorized
  | InvalidIdentity
  | IdentityAlreadyExists
  | IdentityNotFound
  | InsufficientFunds
  | InvalidAgent
  | TokenPaused
  | TransferExceedsLimit
  | InvalidClaimTopic
  | InvalidIssuer
deriving DecidableEq, Repr

/-- The `ProgramError` values the processor can produce.  `custom e` is
`ProgramError::Custom(e as u32)` (the `From<TokenError>` impl of
`src/error.rs`); `borshIoError` is the `ProgramError::BorshIoError`
produced when `try_from_slice` fails; `arithmeticPanic` models a Rust
panic from `.unwrap()` on failed checked arithmetic (which aborts the
invocation before any further write). -/
inductive ProgError where
  | custom (e : TokenError)
  | missingRequiredSignature
  | invalidAccountData
  | uninitializedAccount
  | notEnoughAccountKeys
  | invalidArgument
  | borshIoError
  | arithmeticPanic
deriving DecidableEq, Repr

/-- `ACCOUNT_FROZEN_FLAG` of `src/state.rs` (bit 0 of a token account's state). -/
def ACCOUNT_FROZEN_FLAG : Nat := 1

/-- The `Token` record of `src/state.rs` (`name`/`symbol` as UTF-8 byte lists). -/
structure Token where
  is_initialized : Bool
  owner : Pubkey
  name : List Nat
  symbol : List Nat
  decimals : Nat
  supply : Nat
  is_paused : Bool
  identity_registry : Pubkey
  compliance : Pubkey
deriving DecidableEq, Repr

/-- `Token::is_agent` of `src/state.rs`: the sources check the key against
the token owner ("For simplicity, we just check if the key is the owner"). -/
def Token.is_agent (t : Token) (key : Pubkey) : Bool :=
  key == t.owner

/-- The `TokenAccount` record of `src/state.rs`. -/
structure TokenAccount where
  is_initialized : Bool
  token : Pubkey
  owner : Pubkey
  amount : Nat
  state : Nat
deriving DecidableEq, Repr

/-- The `Identity` record of `src/state.rs` (`identity_hash` as a byte list). -/
structure Identity where
  is_initialized : Bool
  owner : Pubkey
  identity_hash : List Nat
  country : Nat
deriving DecidableEq, Repr

/-- The `IdentityRegistry` record of `src/state.rs`. -/
structure IdentityRegistry where
  is_initialized : Bool
  owner : Pubkey
  identity_storage : Pubkey
  trusted_issuers_registry : Pubkey
  claim_topics_registry : Pubkey
deriving DecidableEq, Repr

/-- `IdentityRegistry::is_verified_address`: the sources return `true`
unconditionally ("For simplicity, we'll just return true here"). -/
def IdentityRegistry.is_verified_address (_ : IdentityRegistry) (_ : Pubkey) : Bool :=
  true

/-- `IdentityRegistry::identity_exists`: the sources return `false`
unconditionally. -/
def IdentityRegistry.identity_exists (_ : IdentityRegistry) (_ : Pubkey) : Bool :=
  false

/-- `IdentityRegistry::is_agent` of `src/state.rs`: checks the key against
the registry owner. -/
def IdentityRegistry.is_agent (r : IdentityRegistry) (key : Pubkey) : Bool :=
  key == r.owner

/-- The `Compliance` record of `src/state.rs`. -/
structure Compliance where
  is_initialized : Bool
  owner : Pubkey
deriving DecidableEq, Repr

/-- `Compliance::check_transfer`: the sources return `true` unconditionally. -/
def Compliance.check_transfer (_ : Compliance) (_from _to : Pubkey) (_amount : Nat) : Bool :=
  true

/-- The `Agent` record of `src/state.rs`. -/
structure Agent where
  is_initialized : Bool
  key : Pubkey
deriving DecidableEq, Repr

/-- The rent sysvar's data, abstracted to the exemption threshold for the
fixed-size token slot.  (`Rent::is_exempt` is external `solana_program`
code whose floating-point minimum-balance computation is irrelevant to
the processor's logic; only the comparison against the account's lamports
matters here.) -/
structure RentData where
  minimumBalance : Nat
deriving DecidableEq, Repr

/-- The decoded contents of an account's data buffer. -/
inductive AccountData where
  | token (t : Token)
  | tokenAccount (a : TokenAccount)
  | identity (i : Identity)
  | registry (r : IdentityRegistry)
  | compliance (c : Compliance)
  | agent (a : Agent)
  | rent (r : RentData)
  | raw
deriving DecidableEq, Repr

/-- A Solana `AccountInfo` as seen by the processor: address, signer flag,
owning program, lamport balance and (decoded) data buffer. -/
structure AccountInfo where
  key : Pubkey
  is_signer : Bool
  owner : Pubkey
  lamports : Nat
  data : AccountData
deriving DecidableEq, Repr

/-- The address of the rent sysvar (`sysvar::rent::id()`), a distinguished
constant. -/
def RENT_SYSVAR_ID : Pubkey := 101

/-- `Token::unpack`: fails with `InvalidAccountData` when the buffer does
not deserialize as a `Token` and with `UninitializedAccount` when the
record is not initialized. -/
def unpackToken : AccountData → Except ProgError Token
  | .token t => if t.is_initialized then .ok t else .error .uninitializedAccount
  | _ => .error .invalidAccountData

/-- `TokenAccount::unpack`. -/
def unpackTokenAccount : AccountData → Except ProgError TokenAccount
  | .tokenAccount a => if a.is_initialized then .ok a else .error .uninitializedAccount
  | _ => .error .invalidAccountData

/-- `IdentityRegistry::unpack`. -/
def unpackIdentityRegistry : AccountData → Except ProgError IdentityRegistry
  | .registry r => if r.is_initialized then .ok r else .error .uninitializedAccount
  | _ => .error .invalidAccountData

/-- `Compliance::unpack`. -/
def unpackCompliance : AccountData → Except ProgError Compliance
  | .compliance c => if c.is_initialized then .ok c else .error .uninitializedAccount
  | _ => .error .invalidAccountData

/-- `Agent::unpack`. -/
def unpackAgent : AccountData → Except ProgError Agent
  | .agent a => if a.is_initialized then .ok a else .error .uninitializedAccount
  | _ => .error .invalidAccountData

/-- `Rent::from_account_info`: rejects a wrong sysvar address with
`InvalidArgument`, non-rent data with `InvalidAccountData`. -/
def unpackRent (info : AccountInfo) : Except ProgError RentData :=
  if info.key ≠ RENT_SYSVAR_ID then .error .invalidArgument
  else match info.data with
    | .rent r => .ok r
    | _ => .error .invalidAccountData

/-- `Pack::pack` into the `i`-th supplied account: replaces that account's
data buffer.  (It cannot fail here: the buffer length was already
validated by the successful `unpack` of the same slot, and every record
written fits its fixed slot size.) -/
def writeAccount (st : List AccountInfo) (i : Nat) (d : AccountData) : List AccountInfo :=
  match st[i]? with
  | some a => st.set i { a with data := d }
  | none => st

/-- Decidable equality of `Except` results, so concrete invocations can be
evaluated by `decide`. -/
instance (ε α : Type) [DecidableEq ε] [DecidableEq α] : DecidableEq (Except ε α) := fun a b =>
  match a, b with
  | .ok x, .ok y =>
    if h : x = y then .isTrue (congrArg Except.ok h)
    else .isFalse (fun hh => h (Except.ok.inj hh))
  | .error x, .error y =>
    if h : x = y then .isTrue (congrArg Except.error h)
    else .isFalse (fun hh => h (Except.error.inj hh))
  | .ok _, .error _ => .isFalse (fun hh => Except.noConfusion hh)
  | .error _, .ok _ => .isFalse (fun hh => Except.noConfusion hh)

/-- Result of one instruction invocation: the Rust `ProgramResult` plus the
account list as left behind (for failed invocations, as of the failure
point). -/
abbrev HandlerOut := Except ProgError Unit × List AccountInfo

/-- The `TokenInstruction` enum of `src/instruction.rs`, in declaration
order (Borsh assigns tags 0..24 in this order). -/
inductive TokenInstruction where
  | InitializeToken (name symbol : List Nat) (decimals : Nat)
  | Transfer (amount : Nat)
  | ForcedTransfer (amount : Nat)
  | Mint (amount : Nat)
  | Burn (amount : Nat)
  | Recover (amount : Nat)
  | FreezeAddress
  | UnfreezeAddress
  | SetCompliance
  | SetIdentityRegistry
  | AddAgent
  | RemoveAgent
  | Pause
  | Unpause
  | RegisterIdentity (identity : List Nat) (country : Nat)
  | UpdateIdentity (identity : List Nat)
  | UpdateCountry (country : Nat)
  | DeleteIdentity
  | AddClaimTopic (topic : Nat)
  | RemoveClaimTopic (topic : Nat)
  | AddTrustedIssuer (claim_topics : List Nat)
  | RemoveTrustedIssuer
  | UpdateIssuerClaimTopics (claim_topics : List Nat)
  | AddComplianceRule
  | RemoveComplianceRule
deriving DecidableEq, Repr

/-- Value of a little-endian byte list. -/
def leNat (bs : List Nat) : Nat :=
  bs.foldr (fun b acc => b + 256 * acc) 0

/-- Read `n` raw bytes. -/
def readBytes (n : Nat) (input : List Nat) : Option (List Nat × List Nat) :=
  if n ≤ input.length then some (input.take n, input.drop n) else none

/-- Read an `n`-byte little-endian unsigned integer (Borsh `u16`/`u32`/`u64`). -/
def readLE (n : Nat) (input : List Nat) : Option (Nat × List Nat) :=
  if n ≤ input.length then some (leNat (input.take n), input.drop n) else none

/-- UTF-8 validity of a byte list (the check `String::from_utf8` performs
when Borsh deserializes a Rust `String`). -/
def utf8Valid : List Nat → Bool
  | [] => true
  | b :: rest =>
    if b ≤ 0x7F then utf8Valid rest
    else if b < 0xC2 then false
    else if b ≤ 0xDF then
      match rest with
      | b1 :: r => decide (0x80 ≤ b1 ∧ b1 ≤ 0xBF) && utf8Valid r
      | [] => false
    else if b ≤ 0xEF then
      match rest with
      | b1 :: b2 :: r =>
        decide ((if b = 0xE0 then 0xA0 else 0x80) ≤ b1 ∧
          b1 ≤ (if b = 0xED then 0x9F else 0xBF) ∧
          0x80 ≤ b2 ∧ b2 ≤ 0xBF) && utf8Valid r
      | _ => false
    else if b ≤ 0xF4 then
      match rest with
      | b1 :: b2 :: b3 :: r =>
        decide ((if b = 0xF0 then 0x90 else 0x80) ≤ b1 ∧
          b1 ≤ (if b = 0xF4 then 0x8F else 0xBF) ∧
          0x80 ≤ b2 ∧ b2 ≤ 0xBF ∧ 0x80 ≤ b3 ∧ b3 ≤ 0xBF) && utf8Valid r
      | _ => false
    else false

/-- Borsh `String`: `u32` little-endian length, then that many bytes,
which must be valid UTF-8. -/
def readString (input : List Nat) : Option (List Nat × List Nat) :=
  match readLE 4 input with
  | some (len, rest) =>
    if len ≤ rest.length && utf8Valid (rest.take len) then
      some (rest.take len, rest.drop len)
    else none
  | none => none

/-- Borsh `Vec<u64>` elements: `n` consecutive `u64`s. -/
def readU64s : Nat → List Nat → Option (List Nat × List Nat)
  | 0, input => some ([], input)
  | n + 1, input =>
    match readLE 8 input with
    | some (v, rest) =>
      match readU64s n rest with
      | some (vs, rest2) => some (v :: vs, rest2)
      | none => none
    | none => none

/-- Borsh `Vec<u64>`: `u32` little-endian count, then the elements. -/
def readVecU64 (input : List Nat) : Option (List Nat × List Nat) :=
  match readLE 4 input with
  | some (n, rest) => readU64s n rest
  | none => none

/-- Borsh deserialization of one `TokenInstruction` (tag byte, then the
variant's fields), returning the remaining bytes. -/
def decodeCore (input : List Nat) : Option (TokenInstruction × List Nat) :=
  match input with
  | [] => none
  | tag :: rest =>
    if tag = 0 then
      match readString rest with
      | some (name, r1) =>
        match readString r1 with
        | some (symbol, r2) =>
          match r2 with
          | d :: r3 => some (.InitializeToken name symbol d, r3)
          | [] => none
        | none => none
      | none => none
    else if tag = 1 then
      match readLE 8 rest with
      | some (a, r) => some (.Transfer a, r)
      | none => none
    else if tag = 2 then
      match readLE 8 rest with
      | some (a, r) => some (.ForcedTransfer a, r)
      | none => none
    else if tag = 3 then
      match readLE 8 rest with
      | some (a, r) => some (.Mint a, r)
      | none => none
    else if tag = 4 then
      match readLE 8 rest with
      | some (a, r) => some (.Burn a, r)
      | none => none
    else if tag = 5 then
      match readLE 8 rest with
      | some (a, r) => some (.Recover a, r)
      | none => none
    else if tag = 6 then some (.FreezeAddress, rest)
    else if tag = 7 then some (.UnfreezeAddress, rest)
    else if tag = 8 then some (.SetCompliance, rest)
    else if tag = 9 then some (.SetIdentityRegistry, rest)
    else if tag = 10 then some (.AddAgent, rest)
    else if tag = 11 then some (.RemoveAgent, rest)
    else if tag = 12 then some (.Pause, rest)
    else if tag = 13 then some (.Unpause, rest)
    else if tag = 14 then
      match readBytes 32 rest with
      | some (idh, r1) =>
        match readLE 2 r1 with
        | some (c, r2) => some (.RegisterIdentity idh c, r2)
        | none => none
      | none => none
    else if tag = 15 then
      match readBytes 32 rest with
      | some (idh, r1) => some (.UpdateIdentity idh, r1)
      | none => none
    else if tag = 16 then
      match readLE 2 rest with
      | some (c, r1) => some (.UpdateCountry c, r1)
      | none => none
    else if tag = 17 then some (.DeleteIdentity, rest)
    else if tag = 18 then
      match readLE 8 rest with
      | some (t, r) => some (.AddClaimTopic t, r)
      | none => none
    else if tag = 19 then
      match readLE 8 rest with
      | some (t, r) => some (.RemoveClaimTopic t, r)
      | none => none
    else if tag = 20 then
      match readVecU64 rest with
      | some (ts, r) => some (.AddTrustedIssuer ts, r)
      | none => none
    else if tag = 21 then some (.RemoveTrustedIssuer, rest)
    else if tag = 22 then
      match readVecU64 rest with
      | some (ts, r) => some (.UpdateIssuerClaimTopics ts, r)
      | none => none
    else if tag = 23 then some (.AddComplianceRule, rest)
    else if tag = 24 then some (.RemoveComplianceRule, rest)
    else none

/-- `TokenInstruction::try_from_slice`: deserialize and reject trailing
bytes ("Not all bytes read"). -/
def decodeInstruction (input : List Nat) : Option TokenInstruction :=
  match decodeCore input with
  | some (i, []) => some i
  | _ => none

/-- `Processor::process_initialize_token` (`src/processor.rs` lines
143-184).  Accounts: token slot, rent sysvar, owner, identity registry,
compliance.  Note: the handler never checks `owner_info.is_signer`. -/
def process_initialize_token (accounts : List AccountInfo) (name symbol : List Nat)
    (decimals : Nat) (program_id : Pubkey) : HandlerOut :=
  match accounts[0]?, accounts[1]?, accounts[2]?, accounts[3]?, accounts[4]? with
  | some token_account_info, some rent_info, some owner_info,
    some identity_registry_info, some compliance_info =>
    if token_account_info.owner ≠ program_id then
      (.error (.custom .IncorrectProgramId), accounts)
    else
      match unpackRent rent_info with
      | .error e => (.error e, accounts)
      | .ok rent =>
        if ¬ (rent.minimumBalance ≤ token_account_info.lamports) then
          (.error (.custom .NotRentExempt), accounts)
        else
          let token : Token :=
            { is_initialized := true
              owner := owner_info.key
              name := name
              symbol := symbol
              decimals := decimals
              supply := 0
              is_paused := false
              identity_registry := identity_registry_info.key
              compliance := compliance_info.key }
          (.ok (), writeAccount accounts 0 (.token token))
  | _, _, _, _, _ => (.error .notEnoughAccountKeys, accounts)

/-- `Processor::process_transfer` (`src/processor.rs` lines 187-265).
Accounts: owner (signer), source, destination, token, identity registry,
compliance. -/
def process_transfer (accounts : List AccountInfo) (amount : Nat)
    (program_id : Pubkey) : HandlerOut :=
  match accounts[0]?, accounts[1]?, accounts[2]?, accounts[3]?, accounts[4]?, accounts[5]? with
  | some owner_info, some source_account_info, some destination_account_info,
    some token_info, some identity_registry_info, some compliance_info =>
    if source_account_info.owner ≠ program_id ∨ destination_account_info.owner ≠ program_id ∨
        token_info.owner ≠ program_id then
      (.error (.custom .IncorrectProgramId), accounts)
    else if owner_info.is_signer = false then
      (.error .missingRequiredSignature, accounts)
    else
      match unpackToken token_info.data with
      | .error e => (.error e, accounts)
      | .ok token =>
      match unpackTokenAccount source_account_info.data with
      | .error e => (.error e, accounts)
      | .ok source_account =>
      match unpackTokenAccount destination_account_info.data with
      | .error e => (.error e, accounts)
      | .ok dest_account =>
      if token.is_paused then (.error (.custom .TokenPaused), accounts)
      else if source_account.owner ≠ owner_info.key then
        (.error (.custom .InvalidOwner), accounts)
      else if Nat.land source_account.state ACCOUNT_FROZEN_FLAG ≠ 0 then
        (.error (.custom .AddressFrozen), accounts)
      else if Nat.land dest_account.state ACCOUNT_FROZEN_FLAG ≠ 0 then
        (.error (.custom .AddressFrozen), accounts)
      else
      match unpackIdentityRegistry identity_registry_info.data with
      | .error e => (.error e, accounts)
      | .ok identity_registry =>
      if identity_registry.is_verified_address source_account.owner = false then
        (.error (.custom .IdentityNotVerified), accounts)
      else if identity_registry.is_verified_address dest_account.owner = false then
        (.error (.custom .IdentityNotVerified), accounts)
      else
      match unpackCompliance compliance_info.data with
      | .error e => (.error e, accounts)
      | .ok compliance =>
      if compliance.check_transfer source_account.owner dest_account.owner amount = false then
        (.error (.custom .TransferNotCompliant), accounts)
      else if source_account.amount < amount then
        (.error (.custom .InsufficientFunds), accounts)
      else
      match checkedSub source_account.amount amount, checkedAdd dest_account.amount amount with
      | some newSrc, some newDst =>
        let st1 := writeAccount accounts 1 (.tokenAccount { source_account with amount := newSrc })
        let st2 := writeAccount st1 2 (.tokenAccount { dest_account with amount := newDst })
        (.ok (), st2)
      | _, _ => (.error .arithmeticPanic, accounts)
  | _, _, _, _, _, _ => (.error .notEnoughAccountKeys, accounts)

/-- `Processor::process_forced_transfer` (`src/processor.rs` lines
268-339).  Accounts: agent (signer), source, destination, token, identity
registry, compliance.  Note: unlike `process_transfer`, the handler never
tests `ACCOUNT_FROZEN_FLAG`. -/
def process_forced_transfer (accounts : List AccountInfo) (amount : Nat)
    (program_id : Pubkey) : HandlerOut :=
  match accounts[0]?, accounts[1]?, accounts[2]?, accounts[3]?, accounts[4]?, accounts[5]? with
  | some agent_info, some source_account_info, some destination_account_info,
    some token_info, some identity_registry_info, some compliance_info =>
    if source_account_info.owner ≠ program_id ∨ destination_account_info.owner ≠ program_id ∨
        token_info.owner ≠ program_id then
      (.error (.custom .IncorrectProgramId), accounts)
    else if agent_info.is_signer = false then
      (.error .missingRequiredSignature, accounts)
    else
      match unpackToken token_info.data with
      | .error e => (.error e, accounts)
      | .ok token =>
      match unpackTokenAccount source_account_info.data with
      | .error e => (.error e, accounts)
      | .ok source_account =>
      match unpackTokenAccount destination_account_info.data with
      | .error e => (.error e, accounts)
      | .ok dest_account =>
      match unpackAgent agent_info.data with
      | .error e => (.error e, accounts)
      | .ok agent =>
      if token.is_agent agent.key = false then
        (.error (.custom .InvalidAgent), accounts)
      else if token.is_paused then (.error (.custom .TokenPaused), accounts)
      else
      match unpackIdentityRegistry identity_registry_info.data with
      | .error e => (.error e, accounts)
      | .ok identity_registry =>
      if identity_registry.is_verified_address source_account.owner = false then
        (.error (.custom .IdentityNotVerified), accounts)
      else if identity_registry.is_verified_address dest_account.owner = false then
        (.error (.custom .IdentityNotVerified), accounts)
      else
      match unpackCompliance compliance_info.data with
      | .error e => (.error e, accounts)
      | .ok compliance =>
      if compliance.check_transfer source_account.owner dest_account.owner amount = false then
        (.error (.custom .TransferNotCompliant), accounts)
      else if source_account.amount < amount then
        (.error (.custom .InsufficientFunds), accounts)
      else
      match checkedSub source_account.amount amount, checkedAdd dest_account.amount amount with
      | some newSrc, some newDst =>
        let st1 := writeAccount accounts 1 (.tokenAccount { source_account with amount := newSrc })
        let st2 := writeAccount st1 2 (.tokenAccount { dest_account with amount := newDst })
        (.ok (), st2)
      | _, _ => (.error .arithmeticPanic, accounts)
  | _, _, _, _, _, _ => (.error .notEnoughAccountKeys, accounts)

/-- `Processor::process_mint` (`src/processor.rs` lines 342-398).
Accounts: agent (signer), destination, token, identity registry. -/
def process_mint (accounts : List AccountInfo) (amount : Nat)
    (program_id : Pubkey) : HandlerOut :=
  match accounts[0]?, accounts[1]?, accounts[2]?, accounts[3]? with
  | some agent_info, some destination_account_info, some token_info,
    some identity_registry_info =>
    if destination_account_info.owner ≠ program_id ∨ token_info.owner ≠ program_id then
      (.error (.custom .IncorrectProgramId), accounts)
    else if agent_info.is_signer = false then
      (.error .missingRequiredSignature, accounts)
    else
      match unpackToken token_info.data with
      | .error e => (.error e, accounts)
      | .ok token =>
      match unpackTokenAccount destination_account_info.data with
      | .error e => (.error e, accounts)
      | .ok dest_account =>
      match unpackAgent agent_info.data with
      | .error e => (.error e, accounts)
      | .ok agent =>
      if token.is_agent agent.key = false then
        (.error (.custom .InvalidAgent), accounts)
      else if token.is_paused then (.error (.custom .TokenPaused), accounts)
      else
      match unpackIdentityRegistry identity_registry_info.data with
      | .error e => (.error e, accounts)
      | .ok identity_registry =>
      if identity_registry.is_verified_address dest_account.owner = false then
        (.error (.custom .IdentityNotVerified), accounts)
      else if Nat.land dest_account.state ACCOUNT_FROZEN_FLAG ≠ 0 then
        (.error (.custom .AddressFrozen), accounts)
      else
      match checkedAdd token.supply amount, checkedAdd dest_account.amount amount with
      | some newSupply, some newAmount =>
        let st1 := writeAccount accounts 2 (.token { token with supply := newSupply })
        let st2 := writeAccount st1 1 (.tokenAccount { dest_account with amount := newAmount })
        (.ok (), st2)
      | _, _ => (.error .arithmeticPanic, accounts)
  | _, _, _, _ => (.error .notEnoughAccountKeys, accounts)

/-- `Processor::process_burn` (`src/processor.rs` lines 401-454).
Accounts: owner (signer), source, token. -/
def process_burn (accounts : List AccountInfo) (amount : Nat)
    (program_id : Pubkey) : HandlerOut :=
  match accounts[0]?, accounts[1]?, accounts[2]? with
  | some owner_info, some source_account_info, some token_info =>
    if source_account_info.owner ≠ program_id ∨ token_info.owner ≠ program_id then
      (.error (.custom .IncorrectProgramId), accounts)
    else if owner_info.is_signer = false then
      (.error .missingRequiredSignature, accounts)
    else
      match unpackToken token_info.data with
      | .error e => (.error e, accounts)
      | .ok token =>
      match unpackTokenAccount source_account_info.data with
      | .error e => (.error e, accounts)
      | .ok source_account =>
      if source_account.owner ≠ owner_info.key then
        (.error (.custom .InvalidOwner), accounts)
      else if token.is_paused then (.error (.custom .TokenPaused), accounts)
      else if Nat.land source_account.state ACCOUNT_FROZEN_FLAG ≠ 0 then
        (.error (.custom .AddressFrozen), accounts)
      else if source_account.amount < amount then
        (.error (.custom .InsufficientFunds), accounts)
      else
      match checkedSub token.supply amount, checkedSub source_account.amount amount with
      | some newSupply, some newAmount =>
        let st1 := writeAccount accounts 2 (.token { token with supply := newSupply })
        let st2 := writeAccount st1 1 (.tokenAccount { source_account with amount := newAmount })
        (.ok (), st2)
      | _, _ => (.error .arithmeticPanic, accounts)
  | _, _, _ => (.error .notEnoughAccountKeys, accounts)

/-- `Processor::process_recover` (`src/processor.rs` lines 459-467):
"Function not yet implemented" — the stub returns `Ok(())` without reading
or writing any account. -/
def process_recover (accounts : List AccountInfo) (_amount : Nat)
    (_program_id : Pubkey) : HandlerOut :=
  (.ok (), accounts)

/-- `Processor::process_freeze_address`: unimplemented stub, returns `Ok(())`. -/
def process_freeze_address (accounts : List AccountInfo) (_program_id : Pubkey) : HandlerOut :=
  (.ok (), accounts)

/-- `Processor::process_unfreeze_address`: unimplemented stub, returns `Ok(())`. -/
def process_unfreeze_address (accounts : List AccountInfo) (_program_id : Pubkey) : HandlerOut :=
  (.ok (), accounts)

/-- `Processor::process_set_compliance`: unimplemented stub, returns `Ok(())`. -/
def process_set_compliance (accounts : List AccountInfo) (_program_id : Pubkey) : HandlerOut :=
  (.ok (), accounts)

/-- `Processor::process_set_identity_registry`: unimplemented stub, returns `Ok(())`. -/
def process_set_identity_registry (accounts : List AccountInfo) (_program_id : Pubkey) : HandlerOut :=
  (.ok (), accounts)

/-- `Processor::process_add_agent`: unimplemented stub, returns `Ok(())`
(no agent roster is ever recorded anywhere). -/
def process_add_agent (accounts : List AccountInfo) (_program_id : Pubkey) : HandlerOut :=
  (.ok (), accounts)

/-- `Processor::process_remove_agent`: unimplemented stub, returns `Ok(())`. -/
def process_remove_agent (accounts : List AccountInfo) (_program_id : Pubkey) : HandlerOut :=
  (.ok (), accounts)

/-- `Processor::process_pause`: unimplemented stub, returns `Ok(())`. -/
def process_pause (accounts : List AccountInfo) (_program_id : Pubkey) : HandlerOut :=
  (.ok (), accounts)

/-- `Processor::process_unpause`: unimplemented stub, returns `Ok(())`. -/
def process_unpause (accounts : List AccountInfo) (_program_id : Pubkey) : HandlerOut :=
  (.ok (), accounts)

/-- `Processor::process_register_identity` (`src/processor.rs` lines
550-600).  Accounts: authority (signer), identity registry, identity
storage, user.  Performs all checks but stores nothing. -/
def process_register_identity (accounts : List AccountInfo) (_identity : List Nat)
    (_country : Nat) (program_id : Pubkey) : HandlerOut :=
  match accounts[0]?, accounts[1]?, accounts[2]?, accounts[3]? with
  | some authority_info, some identity_registry_info, some identity_storage_info,
    some user_account_info =>
    if identity_registry_info.owner ≠ program_id ∨ identity_storage_info.owner ≠ program_id then
      (.error (.custom .IncorrectProgramId), accounts)
    else if authority_info.is_signer = false then
      (.error .missingRequiredSignature, accounts)
    else
      match unpackIdentityRegistry identity_registry_info.data with
      | .error e => (.error e, accounts)
      | .ok identity_registry =>
      if identity_registry.owner ≠ authority_info.key ∧
          identity_registry.is_agent authority_info.key = false then
        (.error (.custom .Unauthorized), accounts)
      else if identity_registry.identity_exists user_account_info.key then
        (.error (.custom .IdentityAlreadyExists), accounts)
      else
        (.ok (), accounts)
  | _, _, _, _ => (.error .notEnoughAccountKeys, accounts)

/-- `Processor::process_update_identity`: unimplemented stub, returns `Ok(())`. -/
def process_update_identity (accounts : List AccountInfo) (_identity : List Nat)
    (_program_id : Pubkey) : HandlerOut :=
  (.ok (), accounts)

/-- `Processor::process_update_country`: unimplemented stub, returns `Ok(())`. -/
def process_update_country (accounts : List AccountInfo) (_country : Nat)
    (_program_id : Pubkey) : HandlerOut :=
  (.ok (), accounts)

/-- `Processor::process_delete_identity`: unimplemented stub, returns `Ok(())`. -/
def process_delete_identity (accounts : List AccountInfo) (_program_id : Pubkey) : HandlerOut :=
  (.ok (), accounts)

/-- `Processor::process_add_claim_topic`: unimplemented stub, returns `Ok(())`. -/
def process_add_claim_topic (accounts : List AccountInfo) (_topic : Nat)
    (_program_id : Pubkey) : HandlerOut :=
  (.ok (), accounts)

/-- `Processor::process_remove_claim_topic`: unimplemented stub, returns `Ok(())`. -/
def process_remove_claim_topic (accounts : List AccountInfo) (_topic : Nat)
    (_program_id : Pubkey) : HandlerOut :=
  (.ok (), accounts)

/-- `Processor::process_add_trusted_issuer`: unimplemented stub, returns `Ok(())`. -/
def process_add_trusted_issuer (accounts : List AccountInfo) (_claim_topics : List Nat)
    (_program_id : Pubkey) : HandlerOut :=
  (.ok (), accounts)

/-- `Processor::process_remove_trusted_issuer`: unimplemented stub, returns `Ok(())`. -/
def process_remove_trusted_issuer (accounts : List AccountInfo)
    (_program_id : Pubkey) : HandlerOut :=
  (.ok (), accounts)

/-- `Processor::process_update_issuer_claim_topics`: unimplemented stub, returns `Ok(())`. -/
def process_update_issuer_claim_topics (accounts : List AccountInfo)
    (_claim_topics : List Nat) (_program_id : Pubkey) : HandlerOut :=
  (.ok (), accounts)

/-- `Processor::process_add_compliance_rule`: unimplemented stub, returns `Ok(())`. -/
def process_add_compliance_rule (accounts : List AccountInfo)
    (_program_id : Pubkey) : HandlerOut :=
  (.ok (), accounts)

/-- `Processor::process_remove_compliance_rule`: unimplemented stub, returns `Ok(())`. -/
def process_remove_compliance_rule (accounts : List AccountInfo)
    (_program_id : Pubkey) : HandlerOut :=
  (.ok (), accounts)

/-- `Processor::process` (`src/processor.rs` lines 27-140): Borsh-decode
the payload (`?` turns a failure into `ProgramError::BorshIoError`), then
dispatch to the matching handler. -/
def process (program_id : Pubkey) (accounts : List AccountInfo)
    (input : List Nat) : HandlerOut :=
  match decodeInstruction input with
  | none => (.error .borshIoError, accounts)
  | some instruction =>
    match instruction with
    | .InitializeToken name symbol decimals =>
      process_initialize_token accounts name symbol decimals program_id
    | .Transfer amount => process_transfer accounts amount program_id
    | .ForcedTransfer amount => process_forced_transfer accounts amount program_id
    | .Mint amount => process_mint accounts amount program_id
    | .Burn amount => process_burn accounts amount program_id
    | .Recover amount => process_recover accounts amount program_id
    | .FreezeAddress => process_freeze_address accounts program_id
    | .UnfreezeAddress => process_unfreeze_address accounts program_id
    | .SetCompliance => process_set_compliance accounts program_id
    | .SetIdentityRegistry => process_set_identity_registry accounts program_id
    | .AddAgent => process_add_agent accounts program_id
    | .RemoveAgent => process_remove_agent accounts program_id
    | .Pause => process_pause accounts program_id
    | .Unpause => process_unpause accounts program_id
    | .RegisterIdentity identity country =>
      process_register_identity accounts identity country program_id
    | .UpdateIdentity identity => process_update_identity accounts identity program_id
    | .UpdateCountry country => process_update_country accounts country program_id
    | .DeleteIdentity => process_delete_identity accounts program_id
    | .AddClaimTopic topic => process_add_claim_topic accounts topic program_id
    | .RemoveClaimTopic topic => process_remove_claim_topic accounts topic program_id
    | .AddTrustedIssuer claim_topics =>
      process_add_trusted_issuer accounts claim_topics program_id
    | .RemoveTrustedIssuer => process_remove_trusted_issuer accounts program_id
    | .UpdateIssuerClaimTopics claim_topics =>
      process_update_issuer_claim_topics accounts claim_topics program_id
    | .AddComplianceRule => process_add_compliance_rule accounts program_id
    | .RemoveComplianceRule => process_remove_compliance_rule accounts program_id

/-- Contribution of one supplied account to the balance total of the token
at address `tok`: its `amount` when it is a `TokenAccount` referencing
`tok`, `0` otherwise. -/
def contrib (tok : Pubkey) (a : AccountInfo) : Nat :=
  match a.data with
  | .tokenAccount ta => if ta.token = tok then ta.amount else 0
  | _ => 0

/-- Sum of the amounts of all supplied `TokenAccount`s referencing the
token at address `tok`. -/
def sumAmountsFor (tok : Pubkey) (st : List AccountInfo) : Nat :=
  (st.map (contrib tok)).sum

/-- Sample program id for concrete invocations. -/
def samplePid : Pubkey := 7

/-- Sample token: owner `50`, supply `105`, not paused. -/
def sampleTok : Token :=
  { is_initialized := true, owner := 50, name := [], symbol := [], decimals := 6,
    supply := 105, is_paused := false, identity_registry := 14, compliance := 15 }

/-- Sample source token account: owner `10`, balance `100`. -/
def srcTA : TokenAccount :=
  { is_initialized := true, token := 13, owner := 10, amount := 100, state := 0 }

/-- Sample destination token account: owner `20`, balance `5`. -/
def dstTA : TokenAccount :=
  { is_initialized := true, token := 13, owner := 20, amount := 5, state := 0 }

/-- Sample identity registry record. -/
def regD : IdentityRegistry :=
  { is_initialized := true, owner := 50, identity_storage := 31,
    trusted_issuers_registry := 32, claim_topics_registry := 33 }

/-- Sample compliance record. -/
def compD : Compliance := { is_initialized := true, owner := 50 }

/-- Sample signing holder account (address `10`, the source owner). -/
def ownerAI : AccountInfo :=
  { key := 10, is_signer := true, owner := 99, lamports := 0, data := .raw }

/-- Sample signing agent account carrying an `Agent` record whose key is
the token owner `50`. -/
def agentAI : AccountInfo :=
  { key := 42, is_signer := true, owner := 99, lamports := 0,
    data := .agent { is_initialized := true, key := 50 } }

/-- Sample source account slot. -/
def srcAI : AccountInfo :=
  { key := 11, is_signer := false, owner := 7, lamports := 0, data := .tokenAccount srcTA }

/-- Sample destination account slot. -/
def dstAI : AccountInfo :=
  { key := 12, is_signer := false, owner := 7, lamports := 0, data := .tokenAccount dstTA }

/-- Sample token slot (address `13`). -/
def tokAI : AccountInfo :=
  { key := 13, is_signer := false, owner := 7, lamports := 0, data := .token sampleTok }

/-- Sample identity registry slot. -/
def regAI : AccountInfo :=
  { key := 14, is_signer := false, owner := 7, lamports := 0, data := .registry regD }

/-- Sample compliance slot. -/
def compAI : AccountInfo :=
  { key := 15, is_signer := false, owner := 7, lamports := 0, data := .compliance compD }

/-- Sample rent sysvar slot. -/
def rentAI : AccountInfo :=
  { key := 101, is_signer := false, owner := 99, lamports := 0,
    data := .rent { minimumBalance := 1000 } }

/-- Sample uninitialized token slot (program-owned, rent-exempt). -/
def tokSlotAI : AccountInfo :=
  { key := 13, is_signer := false, owner := 7, lamports := 5000, data := .raw }

/-- Sample owner account that has NOT signed. -/
def ownerNoSigAI : AccountInfo :=
  { key := 10, is_signer := false, owner := 99, lamports := 0, data := .raw }

/-- Inversion for `unpackToken`. -/
theorem unpackToken_ok {d : AccountData} {t : Token} (h : unpackToken d = .ok t) :
    d = .token t ∧ t.is_initialized = true := by
  cases d <;> simp only [unpackToken] at h <;> try exact absurd h (by simp)
  case token t0 =>
    by_cases hi : t0.is_initialized = true
    · simp only [hi, if_true, Except.ok.injEq] at h
      subst h
      exact ⟨rfl, hi⟩
    · simp [hi] at h

/-- Inversion for `unpackTokenAccount`. -/
theorem unpackTokenAccount_ok {d : AccountData} {a : TokenAccount}
    (h : unpackTokenAccount d = .ok a) :
    d = .tokenAccount a ∧ a.is_initialized = true := by
  cases d <;> simp only [unpackTokenAccount] at h <;> try exact absurd h (by simp)
  case tokenAccount a0 =>
    by_cases hi : a0.is_initialized = true
    · simp only [hi, if_true, Except.ok.injEq] at h
      subst h
      exact ⟨rfl, hi⟩
    · simp [hi] at h

/-- Inversion for `unpackAgent`. -/
theorem unpackAgent_ok {d : AccountData} {a : Agent} (h : unpackAgent d = .ok a) :
    d = .agent a ∧ a.is_initialized = true := by
  cases d <;> simp only [unpackAgent] at h <;> try exact absurd h (by simp)
  case agent a0 =>
    by_cases hi : a0.is_initialized = true
    · simp only [hi, if_true, Except.ok.injEq] at h
      subst h
      exact ⟨rfl, hi⟩
    · simp [hi] at h

/-- Inversion for `checkedAdd`. -/
theorem checkedAdd_some {a b v : Nat} (h : checkedAdd a b = some v) :
    a + b ≤ U64_MAX ∧ v = a + b := by
  by_cases hle : a + b ≤ U64_MAX
  · simp only [checkedAdd, hle, if_true, Option.some.injEq] at h
    exact ⟨hle, h.symm⟩
  · simp [checkedAdd, hle] at h

/-- Inversion for `checkedSub`. -/
theorem checkedSub_some {a b v : Nat} (h : checkedSub a b = some v) :
    b ≤ a ∧ v = a - b := by
  by_cases hle : b ≤ a
  · simp only [checkedSub, hle, if_true, Option.some.injEq] at h
    exact ⟨hle, h.symm⟩
  · simp [checkedSub, hle] at h

set_option maxHeartbeats 1000000 in
/-- Inversion of a successful `process_transfer`: the token and both token
accounts unpacked, the balance and overflow checks passed, and the final
account list is the input with exactly the source and destination balances
rewritten. -/
theorem process_transfer_ok_inv
    {ownerI srcI dstI tokI regI compI : AccountInfo} {rest : List AccountInfo}
    {amount : Nat} {pid : Pubkey} {st' : List AccountInfo}
    (h : process_transfer (ownerI :: srcI :: dstI :: tokI :: regI :: compI :: rest)
        amount pid = (.ok (), st')) :
    ∃ token source_account dest_account,
      tokI.data = .token token ∧ srcI.data = .tokenAccount source_account ∧
      dstI.data = .tokenAccount dest_account ∧
      amount ≤ source_account.amount ∧
      dest_account.amount + amount ≤ U64_MAX ∧
      st' = ownerI ::
        { srcI with data := .tokenAccount { source_account with amount := source_account.amount - amount } } ::
        { dstI with data := .tokenAccount { dest_account with amount := dest_account.amount + amount } } ::
        tokI :: regI :: compI :: rest := by
  rw [process_transfer.eq_def] at h
  split at h
  case _ =>
    rename_i hacc0 hacc1 hacc2 hacc3 hacc4 hacc5
    simp only [List.getElem?_cons_zero, List.getElem?_cons_succ, Option.some.injEq] at hacc0 hacc1 hacc2 hacc3 hacc4 hacc5
    subst hacc0 hacc1 hacc2 hacc3 hacc4 hacc5
    by_cases hc1 : srcI.owner ≠ pid ∨ dstI.owner ≠ pid ∨ tokI.owner ≠ pid
    · rw [if_pos hc1] at h
      exact absurd h (by simp)
    rw [if_neg hc1] at h
    by_cases hc2 : ownerI.is_signer = false
    · rw [if_pos hc2] at h
      exact absurd h (by simp)
    rw [if_neg hc2] at h
    cases htok : unpackToken tokI.data with
    | error e =>
      rw [htok] at h
      exact absurd h (by simp)
    | ok token =>
    rw [htok] at h
    simp only [] at h
    cases hsrc : unpackTokenAccount srcI.data with
    | error e =>
      rw [hsrc] at h
      exact absurd h (by simp)
    | ok source_account =>
    rw [hsrc] at h
    simp only [] at h
    cases hdst : unpackTokenAccount dstI.data with
    | error e =>
      rw [hdst] at h
      exact absurd h (by simp)
    | ok dest_account =>
    rw [hdst] at h
    simp only [] at h
    by_cases hp : token.is_paused = true
    · rw [if_pos hp] at h
      exact absurd h (by simp)
    rw [if_neg hp] at h
    by_cases ho : source_account.owner ≠ ownerI.key
    · rw [if_pos ho] at h
      exact absurd h (by simp)
    rw [if_neg ho] at h
    by_cases hf1 : Nat.land source_account.state ACCOUNT_FROZEN_FLAG ≠ 0
    · rw [if_pos hf1] at h
      exact absurd h (by simp)
    rw [if_neg hf1] at h
    by_cases hf2 : Nat.land dest_account.state ACCOUNT_FROZEN_FLAG ≠ 0
    · rw [if_pos hf2] at h
      exact absurd h (by simp)
    rw [if_neg hf2] at h
    cases hreg : unpackIdentityRegistry regI.data with
    | error e =>
      rw [hreg] at h
      exact absurd h (by simp)
    | ok identity_registry =>
    rw [hreg] at h
    simp only [] at h
    rw [if_neg (by simp [IdentityRegistry.is_verified_address])] at h
    rw [if_neg (by simp [IdentityRegistry.is_verified_address])] at h
    cases hcomp : unpackCompliance compI.data with
    | error e =>
      rw [hcomp] at h
      exact absurd h (by simp)
    | ok compliance =>
    rw [hcomp] at h
    simp only [] at h
    rw [if_neg (by simp [Compliance.check_transfer])] at h
    by_cases hb : source_account.amount < amount
    · rw [if_pos hb] at h
      exact absurd h (by simp)
    rw [if_neg hb] at h
    cases hcs : checkedSub source_account.amount amount with
    | none =>
      rw [hcs] at h
      exact absurd h (by simp)
    | some newSrc =>
    rw [hcs] at h
    cases hca : checkedAdd dest_account.amount amount with
    | none =>
      rw [hca] at h
      exact absurd h (by simp)
    | some newDst =>
    rw [hca] at h
    simp only [] at h
    simp only [Prod.mk.injEq, true_and] at h
    obtain ⟨hsub, hsv⟩ := checkedSub_some hcs
    obtain ⟨hadd, hav⟩ := checkedAdd_some hca
    refine ⟨token, source_account, dest_account,
      (unpackToken_ok htok).1, (unpackTokenAccount_ok hsrc).1, (unpackTokenAccount_ok hdst).1,
      hsub, hadd, ?_⟩
    subst hsv hav
    rw [← h]
    simp [writeAccount, List.set]
  case _ => simp at h

set_option maxHeartbeats 1000000 in
/-- Inversion of a successful `process_forced_transfer`: the records
unpacked, the agent gate and balance/overflow checks passed, and the final
account list is the input with exactly the source and destination balances
rewritten (the frozen flags are never consulted). -/
theorem process_forced_transfer_ok_inv
    {agentI srcI dstI tokI regI compI : AccountInfo} {rest : List AccountInfo}
    {amount : Nat} {pid : Pubkey} {st' : List AccountInfo}
    (h : process_forced_transfer (agentI :: srcI :: dstI :: tokI :: regI :: compI :: rest)
        amount pid = (.ok (), st')) :
    ∃ token source_account dest_account agent,
      tokI.data = .token token ∧ srcI.data = .tokenAccount source_account ∧
      dstI.data = .tokenAccount dest_account ∧ agentI.data = .agent agent ∧
      agent.key = token.owner ∧
      amount ≤ source_account.amount ∧
      dest_account.amount + amount ≤ U64_MAX ∧
      st' = agentI ::
        { srcI with data := .tokenAccount { source_account with amount := source_account.amount - amount } } ::
        { dstI with data := .tokenAccount { dest_account with amount := dest_account.amount + amount } } ::
        tokI :: regI :: compI :: rest := by
  rw [process_forced_transfer.eq_def] at h
  split at h
  case _ =>
    rename_i hacc0 hacc1 hacc2 hacc3 hacc4 hacc5
    simp only [List.getElem?_cons_zero, List.getElem?_cons_succ, Option.some.injEq] at hacc0 hacc1 hacc2 hacc3 hacc4 hacc5
    subst hacc0 hacc1 hacc2 hacc3 hacc4 hacc5
    by_cases hc1 : srcI.owner ≠ pid ∨ dstI.owner ≠ pid ∨ tokI.owner ≠ pid
    · rw [if_pos hc1] at h
      exact absurd h (by simp)
    rw [if_neg hc1] at h
    by_cases hc2 : agentI.is_signer = false
    · rw [if_pos hc2] at h
      exact absurd h (by simp)
    rw [if_neg hc2] at h
    cases htok : unpackToken tokI.data with
    | error e =>
      rw [htok] at h
      exact absurd h (by simp)
    | ok token =>
    rw [htok] at h
    simp only [] at h
    cases hsrc : unpackTokenAccount srcI.data with
    | error e =>
      rw [hsrc] at h
      exact absurd h (by simp)
    | ok source_account =>
    rw [hsrc] at h
    simp only [] at h
    cases hdst : unpackTokenAccount dstI.data with
    | error e =>
      rw [hdst] at h
      exact absurd h (by simp)
    | ok dest_account =>
    rw [hdst] at h
    simp only [] at h
    cases hag : unpackAgent agentI.data with
    | error e =>
      rw [hag] at h
      exact absurd h (by simp)
    | ok agent =>
    rw [hag] at h
    simp only [] at h
    by_cases hga : token.is_agent agent.key = false
    · rw [if_pos hga] at h
      exact absurd h (by simp)
    rw [if_neg hga] at h
    by_cases hp : token.is_paused = true
    · rw [if_pos hp] at h
      exact absurd h (by simp)
    rw [if_neg hp] at h
    cases hreg : unpackIdentityRegistry regI.data with
    | error e =>
      rw [hreg] at h
      exact absurd h (by simp)
    | ok identity_registry =>
    rw [hreg] at h
    simp only [] at h
    rw [if_neg (by simp [IdentityRegistry.is_verified_address])] at h
    rw [if_neg (by simp [IdentityRegistry.is_verified_address])] at h
    cases hcomp : unpackCompliance compI.data with
    | error e =>
      rw [hcomp] at h
      exact absurd h (by simp)
    | ok compliance =>
    rw [hcomp] at h
    simp only [] at h
    rw [if_neg (by simp [Compliance.check_transfer])] at h
    by_cases hb : source_account.amount < amount
    · rw [if_pos hb] at h
      exact absurd h (by simp)
    rw [if_neg hb] at h
    cases hcs : checkedSub source_account.amount amount with
    | none =>
      rw [hcs] at h
      exact absurd h (by simp)
    | some newSrc =>
    rw [hcs] at h
    cases hca : checkedAdd dest_account.amount amount with
    | none =>
      rw [hca] at h
      exact absurd h (by simp)
    | some newDst =>
    rw [hca] at h
    simp only [] at h
    simp only [Prod.mk.injEq, true_and] at h
    obtain ⟨hsub, hsv⟩ := checkedSub_some hcs
    obtain ⟨hadd, hav⟩ := checkedAdd_some hca
    have hkey : agent.key = token.owner := by
      have := hga
      simp only [Token.is_agent, Bool.not_eq_false, beq_iff_eq] at this
      by_cases hk : agent.key = token.owner
      · exact hk
      · exact absurd (by simp [Token.is_agent, hk]) hga
    refine ⟨token, source_account, dest_account, agent,
      (unpackToken_ok htok).1, (unpackTokenAccount_ok hsrc).1, (unpackTokenAccount_ok hdst).1,
      (unpackAgent_ok hag).1, hkey, hsub, hadd, ?_⟩
    subst hsv hav
    rw [← h]
    simp [writeAccount, List.set]
  case _ => simp at h

set_option maxHeartbeats 1000000 in
/-- Inversion of a successful `process_mint`: both checked additions were
in range and the final account list is the input with the supply and the
destination balance increased by `amount` in the same invocation. -/
theorem process_mint_ok_inv
    {agentI dstI tokI regI : AccountInfo} {rest : List AccountInfo}
    {amount : Nat} {pid : Pubkey} {st' : List AccountInfo}
    (h : process_mint (agentI :: dstI :: tokI :: regI :: rest) amount pid = (.ok (), st')) :
    ∃ token dest_account agent,
      tokI.data = .token token ∧ dstI.data = .tokenAccount dest_account ∧
      agentI.data = .agent agent ∧ agent.key = token.owner ∧
      token.supply + amount ≤ U64_MAX ∧
      dest_account.amount + amount ≤ U64_MAX ∧
      st' = agentI ::
        { dstI with data := .tokenAccount { dest_account with amount := dest_account.amount + amount } } ::
        { tokI with data := .token { token with supply := token.supply + amount } } ::
        regI :: rest := by
  rw [process_mint.eq_def] at h
  split at h
  case _ =>
    rename_i hacc0 hacc1 hacc2 hacc3
    simp only [List.getElem?_cons_zero, List.getElem?_cons_succ, Option.some.injEq] at hacc0 hacc1 hacc2 hacc3
    subst hacc0 hacc1 hacc2 hacc3
    by_cases hc1 : dstI.owner ≠ pid ∨ tokI.owner ≠ pid
    · rw [if_pos hc1] at h
      exact absurd h (by simp)
    rw [if_neg hc1] at h
    by_cases hc2 : agentI.is_signer = false
    · rw [if_pos hc2] at h
      exact absurd h (by simp)
    rw [if_neg hc2] at h
    cases htok : unpackToken tokI.data with
    | error e =>
      rw [htok] at h
      exact absurd h (by simp)
    | ok token =>
    rw [htok] at h
    simp only [] at h
    cases hdst : unpackTokenAccount dstI.data with
    | error e =>
      rw [hdst] at h
      exact absurd h (by simp)
    | ok dest_account =>
    rw [hdst] at h
    simp only [] at h
    cases hag : unpackAgent agentI.data with
    | error e =>
      rw [hag] at h
      exact absurd h (by simp)
    | ok agent =>
    rw [hag] at h
    simp only [] at h
    by_cases hga : token.is_agent agent.key = false
    · rw [if_pos hga] at h
      exact absurd h (by simp)
    rw [if_neg hga] at h
    by_cases hp : token.is_paused = true
    · rw [if_pos hp] at h
      exact absurd h (by simp)
    rw [if_neg hp] at h
    cases hreg : unpackIdentityRegistry regI.data with
    | error e =>
      rw [hreg] at h
      exact absurd h (by simp)
    | ok identity_registry =>
    rw [hreg] at h
    simp only [] at h
    rw [if_neg (by simp [IdentityRegistry.is_verified_address])] at h
    by_cases hf : Nat.land dest_account.state ACCOUNT_FROZEN_FLAG ≠ 0
    · rw [if_pos hf] at h
      exact absurd h (by simp)
    rw [if_neg hf] at h
    cases hcs : checkedAdd token.supply amount with
    | none =>
      rw [hcs] at h
      exact absurd h (by simp)
    | some newSupply =>
    rw [hcs] at h
    cases hca : checkedAdd dest_account.amount amount with
    | none =>
      rw [hca] at h
      exact absurd h (by simp)
    | some newAmount =>
    rw [hca] at h
    simp only [] at h
    simp only [Prod.mk.injEq, true_and] at h
    obtain ⟨hsup, hsv⟩ := checkedAdd_some hcs
    obtain ⟨hadd, hav⟩ := checkedAdd_some hca
    have hkey : agent.key = token.owner := by
      by_cases hk : agent.key = token.owner
      · exact hk
      · exact absurd (by simp [Token.is_agent, hk]) hga
    refine ⟨token, dest_account, agent,
      (unpackToken_ok htok).1, (unpackTokenAccount_ok hdst).1, (unpackAgent_ok hag).1,
      hkey, hsup, hadd, ?_⟩
    subst hsv hav
    rw [← h]
    simp [writeAccount, List.set]
  case _ => simp at h

set_option maxHeartbeats 1000000 in
/-- Inversion of a successful `process_burn`: both checked subtractions
were in range and the final account list is the input with the supply and
the source balance decreased by `amount` in the same invocation. -/
theorem process_burn_ok_inv
    {ownerI srcI tokI : AccountInfo} {rest : List AccountInfo}
    {amount : Nat} {pid : Pubkey} {st' : List AccountInfo}
    (h : process_burn (ownerI :: srcI :: tokI :: rest) amount pid = (.ok (), st')) :
    ∃ token source_account,
      tokI.data = .token token ∧ srcI.data = .tokenAccount source_account ∧
      amount ≤ token.supply ∧ amount ≤ source_account.amount ∧
      st' = ownerI ::
        { srcI with data := .tokenAccount { source_account with amount := source_account.amount - amount } } ::
        { tokI with data := .token { token with supply := token.supply - amount } } ::
        rest := by
  rw [process_burn.eq_def] at h
  split at h
  case _ =>
    rename_i hacc0 hacc1 hacc2
    simp only [List.getElem?_cons_zero, List.getElem?_cons_succ, Option.some.injEq] at hacc0 hacc1 hacc2
    subst hacc0 hacc1 hacc2
    by_cases hc1 : srcI.owner ≠ pid ∨ tokI.owner ≠ pid
    · rw [if_pos hc1] at h
      exact absurd h (by simp)
    rw [if_neg hc1] at h
    by_cases hc2 : ownerI.is_signer = false
    · rw [if_pos hc2] at h
      exact absurd h (by simp)
    rw [if_neg hc2] at h
    cases htok : unpackToken tokI.data with
    | error e =>
      rw [htok] at h
      exact absurd h (by simp)
    | ok token =>
    rw [htok] at h
    simp only [] at h
    cases hsrc : unpackTokenAccount srcI.data with
    | error e =>
      rw [hsrc] at h
      exact absurd h (by simp)
    | ok source_account =>
    rw [hsrc] at h
    simp only [] at h
    by_cases ho : source_account.owner ≠ ownerI.key
    · rw [if_pos ho] at h
      exact absurd h (by simp)
    rw [if_neg ho] at h
    by_cases hp : token.is_paused = true
    · rw [if_pos hp] at h
      exact absurd h (by simp)
    rw [if_neg hp] at h
    by_cases hf : Nat.land source_account.state ACCOUNT_FROZEN_FLAG ≠ 0
    · rw [if_pos hf] at h
      exact absurd h (by simp)
    rw [if_neg hf] at h
    by_cases hb : source_account.amount < amount
    · rw [if_pos hb] at h
      exact absurd h (by simp)
    rw [if_neg hb] at h
    cases hcs : checkedSub token.supply amount with
    | none =>
      rw [hcs] at h
      exact absurd h (by simp)
    | some newSupply =>
    rw [hcs] at h
    cases hca : checkedSub source_account.amount amount with
    | none =>
      rw [hca] at h
      exact absurd h (by simp)
    | some newAmount =>
    rw [hca] at h
    simp only [] at h
    simp only [Prod.mk.injEq, true_and] at h
    obtain ⟨hsup, hsv⟩ := checkedSub_some hcs
    obtain ⟨hsub, hav⟩ := checkedSub_some hca
    refine ⟨token, source_account,
      (unpackToken_ok htok).1, (unpackTokenAccount_ok hsrc).1, hsup, hsub, ?_⟩
    subst hsv hav
    rw [← h]
    simp [writeAccount, List.set]
  case _ => simp at h

set_option maxHeartbeats 1000000 in
/-- Every failing `process_transfer` leaves the account list untouched
(all writes happen after the final check). -/
theorem process_transfer_err_state (accounts : List AccountInfo) (amount : Nat) (pid : Pubkey) :
    (process_transfer accounts amount pid).2 = accounts ∨
    (process_transfer accounts amount pid).1 = .ok () := by
  rw [process_transfer.eq_def]
  split
  case _ =>
    rename_i o s d t r ci h0 h1 h2 h3 h4 h5
    by_cases hc1 : s.owner ≠ pid ∨ d.owner ≠ pid ∨ t.owner ≠ pid
    · rw [if_pos hc1]
      left
      rfl
    rw [if_neg hc1]
    by_cases hc2 : o.is_signer = false
    · rw [if_pos hc2]
      left
      rfl
    rw [if_neg hc2]
    cases htok : unpackToken t.data with
    | error e =>
      left
      rfl
    | ok token =>
    simp only []
    cases hsrc : unpackTokenAccount s.data with
    | error e =>
      left
      rfl
    | ok source_account =>
    simp only []
    cases hdst : unpackTokenAccount d.data with
    | error e =>
      left
      rfl
    | ok dest_account =>
    simp only []
    by_cases hp : token.is_paused = true
    · rw [if_pos hp]
      left
      rfl
    rw [if_neg hp]
    by_cases ho : source_account.owner ≠ o.key
    · rw [if_pos ho]
      left
      rfl
    rw [if_neg ho]
    by_cases hf1 : Nat.land source_account.state ACCOUNT_FROZEN_FLAG ≠ 0
    · rw [if_pos hf1]
      left
      rfl
    rw [if_neg hf1]
    by_cases hf2 : Nat.land dest_account.state ACCOUNT_FROZEN_FLAG ≠ 0
    · rw [if_pos hf2]
      left
      rfl
    rw [if_neg hf2]
    cases hreg : unpackIdentityRegistry r.data with
    | error e =>
      left
      rfl
    | ok identity_registry =>
    simp only []
    rw [if_neg (by simp [IdentityRegistry.is_verified_address])]
    rw [if_neg (by simp [IdentityRegistry.is_verified_address])]
    cases hcomp : unpackCompliance ci.data with
    | error e =>
      left
      rfl
    | ok compliance =>
    simp only []
    rw [if_neg (by simp [Compliance.check_transfer])]
    by_cases hb : source_account.amount < amount
    · rw [if_pos hb]
      left
      rfl
    rw [if_neg hb]
    cases hcs : checkedSub source_account.amount amount with
    | none =>
      left
      rfl
    | some newSrc =>
    cases hca : checkedAdd dest_account.amount amount with
    | none =>
      left
      rfl
    | some newDst =>
    right
    rfl
  case _ =>
    left
    rfl

set_option maxHeartbeats 1000000 in
/-- Every failing `process_forced_transfer` leaves the account list
untouched (all writes happen after the final check). -/
theorem process_forced_transfer_err_state (accounts : List AccountInfo) (amount : Nat)
    (pid : Pubkey) :
    (process_forced_transfer accounts amount pid).2 = accounts ∨
    (process_forced_transfer accounts amount pid).1 = .ok () := by
  rw [process_forced_transfer.eq_def]
  split
  case _ =>
    rename_i o s d t r ci h0 h1 h2 h3 h4 h5
    by_cases hc1 : s.owner ≠ pid ∨ d.owner ≠ pid ∨ t.owner ≠ pid
    · rw [if_pos hc1]
      left
      rfl
    rw [if_neg hc1]
    by_cases hc2 : o.is_signer = false
    · rw [if_pos hc2]
      left
      rfl
    rw [if_neg hc2]
    cases htok : unpackToken t.data with
    | error e =>
      left
      rfl
    | ok token =>
    simp only []
    cases hsrc : unpackTokenAccount s.data with
    | error e =>
      left
      rfl
    | ok source_account =>
    simp only []
    cases hdst : unpackTokenAccount d.data with
    | error e =>
      left
      rfl
    | ok dest_account =>
    simp only []
    cases hag : unpackAgent o.data with
    | error e =>
      left
      rfl
    | ok agent =>
    simp only []
    by_cases hga : token.is_agent agent.key = false
    · rw [if_pos hga]
      left
      rfl
    rw [if_neg hga]
    by_cases hp : token.is_paused = true
    · rw [if_pos hp]
      left
      rfl
    rw [if_neg hp]
    cases hreg : unpackIdentityRegistry r.data with
    | error e =>
      left
      rfl
    | ok identity_registry =>
    simp only []
    rw [if_neg (by simp [IdentityRegistry.is_verified_address])]
    rw [if_neg (by simp [IdentityRegistry.is_verified_address])]
    cases hcomp : unpackCompliance ci.data with
    | error e =>
      left
      rfl
    | ok compliance =>
    simp only []
    rw [if_neg (by simp [Compliance.check_transfer])]
    by_cases hb : source_account.amount < amount
    · rw [if_pos hb]
      left
      rfl
    rw [if_neg hb]
    cases hcs : checkedSub source_account.amount amount with
    | none =>
      left
      rfl
    | some newSrc =>
    cases hca : checkedAdd dest_account.amount amount with
    | none =>
      left
      rfl
    | some newDst =>
    right
    rfl
  case _ =>
    left
    rfl

set_option maxHeartbeats 1000000 in
/-- Every failing `process_mint` leaves the account list untouched. -/
theorem process_mint_err_state (accounts : List AccountInfo) (amount : Nat) (pid : Pubkey) :
    (process_mint accounts amount pid).2 = accounts ∨
    (process_mint accounts amount pid).1 = .ok () := by
  rw [process_mint.eq_def]
  split
  case _ =>
    rename_i o d t r h0 h1 h2 h3
    by_cases hc1 : d.owner ≠ pid ∨ t.owner ≠ pid
    · rw [if_pos hc1]
      left
      rfl
    rw [if_neg hc1]
    by_cases hc2 : o.is_signer = false
    · rw [if_pos hc2]
      left
      rfl
    rw [if_neg hc2]
    cases htok : unpackToken t.data with
    | error e =>
      left
      rfl
    | ok token =>
    simp only []
    cases hdst : unpackTokenAccount d.data with
    | error e =>
      left
      rfl
    | ok dest_account =>
    simp only []
    cases hag : unpackAgent o.data with
    | error e =>
      left
      rfl
    | ok agent =>
    simp only []
    by_cases hga : token.is_agent agent.key = false
    · rw [if_pos hga]
      left
      rfl
    rw [if_neg hga]
    by_cases hp : token.is_paused = true
    · rw [if_pos hp]
      left
      rfl
    rw [if_neg hp]
    cases hreg : unpackIdentityRegistry r.data with
    | error e =>
      left
      rfl
    | ok identity_registry =>
    simp only []
    rw [if_neg (by simp [IdentityRegistry.is_verified_address])]
    by_cases hf : Nat.land dest_account.state ACCOUNT_FROZEN_FLAG ≠ 0
    · rw [if_pos hf]
      left
      rfl
    rw [if_neg hf]
    cases hcs : checkedAdd token.supply amount with
    | none =>
      left
      rfl
    | some newSupply =>
    cases hca : checkedAdd dest_account.amount amount with
    | none =>
      left
      rfl
    | some newAmount =>
    right
    rfl
  case _ =>
    left
    rfl

set_option maxHeartbeats 1000000 in
/-- Every failing `process_burn` leaves the account list untouched. -/
theorem process_burn_err_state (accounts : List AccountInfo) (amount : Nat) (pid : Pubkey) :
    (process_burn accounts amount pid).2 = accounts ∨
    (process_burn accounts amount pid).1 = .ok () := by
  rw [process_burn.eq_def]
  split
  case _ =>
    rename_i o s t h0 h1 h2
    by_cases hc1 : s.owner ≠ pid ∨ t.owner ≠ pid
    · rw [if_pos hc1]
      left
      rfl
    rw [if_neg hc1]
    by_cases hc2 : o.is_signer = false
    · rw [if_pos hc2]
      left
      rfl
    rw [if_neg hc2]
    cases htok : unpackToken t.data with
    | error e =>
      left
      rfl
    | ok token =>
    simp only []
    cases hsrc : unpackTokenAccount s.data with
    | error e =>
      left
      rfl
    | ok source_account =>
    simp only []
    by_cases ho : source_account.owner ≠ o.key
    · rw [if_pos ho]
      left
      rfl
    rw [if_neg ho]
    by_cases hp : token.is_paused = true
    · rw [if_pos hp]
      left
      rfl
    rw [if_neg hp]
    by_cases hf : Nat.land source_account.state ACCOUNT_FROZEN_FLAG ≠ 0
    · rw [if_pos hf]
      left
      rfl
    rw [if_neg hf]
    by_cases hb : source_account.amount < amount
    · rw [if_pos hb]
      left
      rfl
    rw [if_neg hb]
    cases hcs : checkedSub token.supply amount with
    | none =>
      left
      rfl
    | some newSupply =>
    cases hca : checkedSub source_account.amount amount with
    | none =>
      left
      rfl
    | some newAmount =>
    right
    rfl
  case _ =>
    left
    rfl

set_option maxHeartbeats 1000000 in
/-- Every failing `process_initialize_token` leaves the account list
untouched. -/
theorem process_initialize_token_err_state (accounts : List AccountInfo)
    (name symbol : List Nat) (decimals : Nat) (pid : Pubkey) :
    (process_initialize_token accounts name symbol decimals pid).2 = accounts ∨
    (process_initialize_token accounts name symbol decimals pid).1 = .ok () := by
  rw [process_initialize_token.eq_def]
  split
  case _ =>
    rename_i ta ri oi ir ci h0 h1 h2 h3 h4
    by_cases hc1 : ta.owner ≠ pid
    · rw [if_pos hc1]
      left
      rfl
    rw [if_neg hc1]
    cases hr : unpackRent ri with
    | error e =>
      left
      rfl
    | ok rent =>
    simp only []
    by_cases he : ¬ (rent.minimumBalance ≤ ta.lamports)
    · rw [if_pos he]
      left
      rfl
    rw [if_neg he]
    right
    rfl
  case _ =>
    left
    rfl

set_option maxHeartbeats 1000000 in
/-- Every failing `process_register_identity` leaves the account list
untouched (the handler writes nothing in any case). -/
theorem process_register_identity_err_state (accounts : List AccountInfo)
    (identity : List Nat) (country : Nat) (pid : Pubkey) :
    (process_register_identity accounts identity country pid).2 = accounts ∨
    (process_register_identity accounts identity country pid).1 = .ok () := by
  rw [process_register_identity.eq_def]
  split
  case _ =>
    rename_i ai ri si ui h0 h1 h2 h3
    by_cases hc1 : ri.owner ≠ pid ∨ si.owner ≠ pid
    · rw [if_pos hc1]
      left
      rfl
    rw [if_neg hc1]
    by_cases hc2 : ai.is_signer = false
    · rw [if_pos hc2]
      left
      rfl
    rw [if_neg hc2]
    cases hreg : unpackIdentityRegistry ri.data with
    | error e =>
      left
      rfl
    | ok identity_registry =>
    simp only []
    by_cases hu : identity_registry.owner ≠ ai.key ∧ identity_registry.is_agent ai.key = false
    · rw [if_pos hu]
      left
      rfl
    rw [if_neg hu]
    by_cases hx : identity_registry.identity_exists ui.key = true
    · rw [if_pos hx]
      left
      rfl
    rw [if_neg hx]
    right
    rfl
  case _ =>
    left
    rfl

/-- Helper: combining a handler's error-state dichotomy with an error
equation yields that the state is unchanged. -/
theorem handlerOut_err_eq {out : HandlerOut} {accounts st' : List AccountInfo} {e : ProgError}
    (hd : out.2 = accounts ∨ out.1 = .ok ()) (h : out = (.error e, st')) : st' = accounts := by
  rcases hd with h2 | h2
  · rw [h] at h2
    exact h2
  · rw [h] at h2
    simp at h2

/-- C4: every invocation of any instruction that returns an error leaves
every supplied account record identical to its pre-call state; the failure
kind is the sole output, with no partial write. -/
theorem C4_error_leaves_state (pid : Pubkey) (accounts : List AccountInfo)
    (input : List Nat) (e : ProgError) (st' : List AccountInfo)
    (h : process pid accounts input = (.error e, st')) : st' = accounts := by
  rw [process.eq_def] at h
  cases hdec : decodeInstruction input with
  | none =>
    rw [hdec] at h
    simp only [Prod.mk.injEq] at h
    exact h.2.symm
  | some instruction =>
    rw [hdec] at h
    simp only [] at h
    cases instruction with
    | InitializeToken name symbol decimals =>
      exact handlerOut_err_eq (process_initialize_token_err_state accounts name symbol decimals pid) h
    | Transfer amount =>
      exact handlerOut_err_eq (process_transfer_err_state accounts amount pid) h
    | ForcedTransfer amount =>
      exact handlerOut_err_eq (process_forced_transfer_err_state accounts amount pid) h
    | Mint amount =>
      exact handlerOut_err_eq (process_mint_err_state accounts amount pid) h
    | Burn amount =>
      exact handlerOut_err_eq (process_burn_err_state accounts amount pid) h
    | Recover amount => simp [process_recover] at h
    | FreezeAddress => simp [process_freeze_address] at h
    | UnfreezeAddress => simp [process_unfreeze_address] at h
    | SetCompliance => simp [process_set_compliance] at h
    | SetIdentityRegistry => simp [process_set_identity_registry] at h
    | AddAgent => simp [process_add_agent] at h
    | RemoveAgent => simp [process_remove_agent] at h
    | Pause => simp [process_pause] at h
    | Unpause => simp [process_unpause] at h
    | RegisterIdentity identity country =>
      exact handlerOut_err_eq (process_register_identity_err_state accounts identity country pid) h
    | UpdateIdentity identity => simp [process_update_identity] at h
    | UpdateCountry country => simp [process_update_country] at h
    | DeleteIdentity => simp [process_delete_identity] at h
    | AddClaimTopic topic => simp [process_add_claim_topic] at h
    | RemoveClaimTopic topic => simp [process_remove_claim_topic] at h
    | AddTrustedIssuer claim_topics => simp [process_add_trusted_issuer] at h
    | RemoveTrustedIssuer => simp [process_remove_trusted_issuer] at h
    | UpdateIssuerClaimTopics claim_topics => simp [process_update_issuer_claim_topics] at h
    | AddComplianceRule => simp [process_add_compliance_rule] at h
    | RemoveComplianceRule => simp [process_remove_compliance_rule] at h

/-- Sample token slot whose token is paused. -/
def pausedTokAI : AccountInfo :=
  { key := 13, is_signer := false, owner := 7, lamports := 0,
    data := .token { sampleTok with is_paused := true } }

/-- Witness for C4: a Transfer on a paused token fails and `process`
returns the account list unchanged. -/
theorem C4_error_leaves_state_witness :
    (process samplePid [ownerAI, srcAI, dstAI, pausedTokAI, regAI, compAI]
        [1, 40, 0, 0, 0, 0, 0, 0, 0]).2 =
      [ownerAI, srcAI, dstAI, pausedTokAI, regAI, compAI] :=
  C4_error_leaves_state samplePid [ownerAI, srcAI, dstAI, pausedTokAI, regAI, compAI]
    [1, 40, 0, 0, 0, 0, 0, 0, 0] (.custom .TokenPaused)
    (process samplePid [ownerAI, srcAI, dstAI, pausedTokAI, regAI, compAI]
      [1, 40, 0, 0, 0, 0, 0, 0, 0]).2
    (by decide)

/-- C5 (counterexample): the malformed single-byte payload `[25]` (an
unknown tag) makes `process` fail with the Borsh deserialization error,
which is NOT the `TokenError::InvalidInstruction` custom error the claim
names. -/
theorem C5_malformed_cex :
    process samplePid [] [25] = (.error .borshIoError, []) ∧
    ProgError.borshIoError ≠ ProgError.custom TokenError.InvalidInstruction := by
  exact ⟨by decide, by decide⟩

/-- C5 (amended): for every payload Borsh fails to decode (unknown tag,
truncated payload, malformed field, trailing bytes), `process` returns the
Borsh deserialization error and no account record is mutated. -/
theorem C5_malformed_rejected (pid : Pubkey) (accounts : List AccountInfo)
    (input : List Nat) (h : decodeInstruction input = none) :
    process pid accounts input = (.error .borshIoError, accounts) := by
  rw [process.eq_def, h]

/-- Witness for C5: a truncated Transfer payload is rejected with the
Borsh error and the (empty) account list is untouched. -/
theorem C5_malformed_rejected_witness :
    process samplePid [ownerAI] [1, 40] = (.error .borshIoError, [ownerAI]) :=
  C5_malformed_rejected samplePid [ownerAI] [1, 40] (by decide)

/-- C7 (code bug): `process_initialize_token` never checks
`owner_info.is_signer`; with the owner account NOT having signed, the
handler still returns `Ok` and writes the token record, instead of
failing with `MissingRequiredSignature`. -/
theorem C7_initialize_ignores_signature :
    ownerNoSigAI.is_signer = false ∧
    process_initialize_token [tokSlotAI, rentAI, ownerNoSigAI, regAI, compAI]
        [65] [66] 9 samplePid =
      (.ok (),
        [{ key := 13, is_signer := false, owner := 7, lamports := 5000,
            data := .token
              { is_initialized := true, owner := 10, name := [65], symbol := [66],
                decimals := 9, supply := 0, is_paused := false,
                identity_registry := 14, compliance := 15 } },
          rentAI, ownerNoSigAI, regAI, compAI]) := by
  exact ⟨by decide, by decide⟩

/-- C9 (code bug): `process_recover` is an unimplemented stub — every
Recover invocation returns `Ok` and leaves every account (hence every
balance and the supply) unchanged, with no authorization check at all. -/
theorem C9_recover_stub (accounts : List AccountInfo) (amount : Nat) (pid : Pubkey) :
    process_recover accounts amount pid = (.ok (), accounts) :=
  rfl

/-- C8: a Mint whose supply or destination-balance addition leaves `u64`
range fails hard (no wrapped value is ever stored, every account is left
unchanged), and likewise a Burn whose supply or balance subtraction would
underflow. -/
theorem C8_checked_arithmetic :
    (∀ (agentI dstI tokI regI : AccountInfo) (rest : List AccountInfo)
        (amount : Nat) (pid : Pubkey) (t : Token) (da : TokenAccount),
      tokI.data = .token t → dstI.data = .tokenAccount da →
      (U64_MAX < t.supply + amount ∨ U64_MAX < da.amount + amount) →
      ∃ e, process_mint (agentI :: dstI :: tokI :: regI :: rest) amount pid =
        (.error e, agentI :: dstI :: tokI :: regI :: rest)) ∧
    (∀ (ownerI srcI tokI : AccountInfo) (rest : List AccountInfo)
        (amount : Nat) (pid : Pubkey) (t : Token) (sa : TokenAccount),
      tokI.data = .token t → srcI.data = .tokenAccount sa →
      (t.supply < amount ∨ sa.amount < amount) →
      ∃ e, process_burn (ownerI :: srcI :: tokI :: rest) amount pid =
        (.error e, ownerI :: srcI :: tokI :: rest)) := by
  constructor
  · intro agentI dstI tokI regI rest amount pid t da ht hd hover
    cases hr1 : (process_mint (agentI :: dstI :: tokI :: regI :: rest) amount pid).1 with
    | ok u =>
      cases u
      have hres : process_mint (agentI :: dstI :: tokI :: regI :: rest) amount pid =
          (.ok (), (process_mint (agentI :: dstI :: tokI :: regI :: rest) amount pid).2) := by
        rw [← hr1]
      obtain ⟨token, dest_account, agent, htok, hdst, _, _, hsup, hadd, _⟩ :=
        process_mint_ok_inv hres
      rw [ht] at htok
      rw [hd] at hdst
      injection htok with htok
      injection hdst with hdst
      subst htok hdst
      rcases hover with hover | hover
      · exact absurd hsup (by omega)
      · exact absurd hadd (by omega)
    | error e =>
      rcases process_mint_err_state (agentI :: dstI :: tokI :: regI :: rest) amount pid with
        h2 | h2
      · exact ⟨e, Prod.ext hr1 h2⟩
      · rw [hr1] at h2
        exact absurd h2 (by simp)
  · intro ownerI srcI tokI rest amount pid t sa ht hs hover
    cases hr1 : (process_burn (ownerI :: srcI :: tokI :: rest) amount pid).1 with
    | ok u =>
      cases u
      have hres : process_burn (ownerI :: srcI :: tokI :: rest) amount pid =
          (.ok (), (process_burn (ownerI :: srcI :: tokI :: rest) amount pid).2) := by
        rw [← hr1]
      obtain ⟨token, source_account, htok, hsrc, hsup, hsub, _⟩ := process_burn_ok_inv hres
      rw [ht] at htok
      rw [hs] at hsrc
      injection htok with htok
      injection hsrc with hsrc
      subst htok hsrc
      rcases hover with hover | hover
      · exact absurd hsup (by omega)
      · exact absurd hsub (by omega)
    | error e =>
      rcases process_burn_err_state (ownerI :: srcI :: tokI :: rest) amount pid with h2 | h2
      · exact ⟨e, Prod.ext hr1 h2⟩
      · rw [hr1] at h2
        exact absurd h2 (by simp)

/-- C1: starting from a state whose supply equals the sum of the amounts
of the supplied token accounts referencing the token, every successful
Transfer, ForcedTransfer, Mint or Burn preserves that equality: the
transfers leave the token record (at its slot) and the balance sum
unchanged, while Mint (resp. Burn) increases (resp. decreases) supply and
the destination (resp. source) balance by exactly `amount` in the same
invocation. -/
theorem C1_conservation :
    (∀ (ownerI srcI dstI tokI regI compI : AccountInfo) (rest : List AccountInfo)
        (amount : Nat) (pid : Pubkey) (st' : List AccountInfo)
        (t : Token) (sa da : TokenAccount),
      tokI.data = .token t → srcI.data = .tokenAccount sa → dstI.data = .tokenAccount da →
      sa.token = tokI.key → da.token = tokI.key →
      t.supply = sumAmountsFor tokI.key (ownerI :: srcI :: dstI :: tokI :: regI :: compI :: rest) →
      process_transfer (ownerI :: srcI :: dstI :: tokI :: regI :: compI :: rest) amount pid =
        (.ok (), st') →
      st'[3]? = some tokI ∧ sumAmountsFor tokI.key st' = t.supply) ∧
    (∀ (agentI srcI dstI tokI regI compI : AccountInfo) (rest : List AccountInfo)
        (amount : Nat) (pid : Pubkey) (st' : List AccountInfo)
        (t : Token) (sa da : TokenAccount),
      tokI.data = .token t → srcI.data = .tokenAccount sa → dstI.data = .tokenAccount da →
      sa.token = tokI.key → da.token = tokI.key →
      t.supply = sumAmountsFor tokI.key (agentI :: srcI :: dstI :: tokI :: regI :: compI :: rest) →
      process_forced_transfer (agentI :: srcI :: dstI :: tokI :: regI :: compI :: rest) amount pid =
        (.ok (), st') →
      st'[3]? = some tokI ∧ sumAmountsFor tokI.key st' = t.supply) ∧
    (∀ (agentI dstI tokI regI : AccountInfo) (rest : List AccountInfo)
        (amount : Nat) (pid : Pubkey) (st' : List AccountInfo)
        (t : Token) (da : TokenAccount),
      tokI.data = .token t → dstI.data = .tokenAccount da → da.token = tokI.key →
      t.supply = sumAmountsFor tokI.key (agentI :: dstI :: tokI :: regI :: rest) →
      process_mint (agentI :: dstI :: tokI :: regI :: rest) amount pid = (.ok (), st') →
      st'[2]? = some { tokI with data := .token { t with supply := t.supply + amount } } ∧
      st'[1]? = some { dstI with data := .tokenAccount { da with amount := da.amount + amount } } ∧
      t.supply + amount = sumAmountsFor tokI.key st') ∧
    (∀ (ownerI srcI tokI : AccountInfo) (rest : List AccountInfo)
        (amount : Nat) (pid : Pubkey) (st' : List AccountInfo)
        (t : Token) (sa : TokenAccount),
      tokI.data = .token t → srcI.data = .tokenAccount sa → sa.token = tokI.key →
      t.supply = sumAmountsFor tokI.key (ownerI :: srcI :: tokI :: rest) →
      process_burn (ownerI :: srcI :: tokI :: rest) amount pid = (.ok (), st') →
      st'[2]? = some { tokI with data := .token { t with supply := t.supply - amount } } ∧
      st'[1]? = some { srcI with data := .tokenAccount { sa with amount := sa.amount - amount } } ∧
      t.supply - amount = sumAmountsFor tokI.key st') := by
  refine ⟨?_, ?_, ?_, ?_⟩
  · intro ownerI srcI dstI tokI regI compI rest amount pid st' t sa da ht hs hd hst hdt hsum hok
    obtain ⟨token, source_account, dest_account, htok, hsrc, hdst, hsub, _, hst'⟩ :=
      process_transfer_ok_inv hok
    rw [ht] at htok
    rw [hs] at hsrc
    rw [hd] at hdst
    injection htok with htok
    injection hsrc with hsrc
    injection hdst with hdst
    subst htok hsrc hdst
    subst hst'
    refine ⟨by simp only [List.getElem?_cons_succ, List.getElem?_cons_zero], ?_⟩
    simp only [sumAmountsFor, List.map_cons, List.sum_cons, contrib, ht, hs, hd, hst, hdt,
      if_true, if_pos rfl] at hsum ⊢
    omega
  · intro agentI srcI dstI tokI regI compI rest amount pid st' t sa da ht hs hd hst hdt hsum hok
    obtain ⟨token, source_account, dest_account, agent, htok, hsrc, hdst, _, _, hsub, _, hst'⟩ :=
      process_forced_transfer_ok_inv hok
    rw [ht] at htok
    rw [hs] at hsrc
    rw [hd] at hdst
    injection htok with htok
    injection hsrc with hsrc
    injection hdst with hdst
    subst htok hsrc hdst
    subst hst'
    refine ⟨by simp only [List.getElem?_cons_succ, List.getElem?_cons_zero], ?_⟩
    simp only [sumAmountsFor, List.map_cons, List.sum_cons, contrib, ht, hs, hd, hst, hdt,
      if_true, if_pos rfl] at hsum ⊢
    omega
  · intro agentI dstI tokI regI rest amount pid st' t da ht hd hdt hsum hok
    obtain ⟨token, dest_account, agent, htok, hdst, _, _, _, _, hst'⟩ := process_mint_ok_inv hok
    rw [ht] at htok
    rw [hd] at hdst
    injection htok with htok
    injection hdst with hdst
    subst htok hdst
    subst hst'
    refine ⟨by simp only [List.getElem?_cons_succ, List.getElem?_cons_zero],
      by simp only [List.getElem?_cons_succ, List.getElem?_cons_zero], ?_⟩
    simp only [sumAmountsFor, List.map_cons, List.sum_cons, contrib, ht, hd, hdt,
      if_true, if_pos rfl] at hsum ⊢
    omega
  · intro ownerI srcI tokI rest amount pid st' t sa ht hs hst hsum hok
    obtain ⟨token, source_account, htok, hsrc, hsupply, hsub, hst'⟩ := process_burn_ok_inv hok
    rw [ht] at htok
    rw [hs] at hsrc
    injection htok with htok
    injection hsrc with hsrc
    subst htok hsrc
    subst hst'
    refine ⟨by simp only [List.getElem?_cons_succ, List.getElem?_cons_zero],
      by simp only [List.getElem?_cons_succ, List.getElem?_cons_zero], ?_⟩
    simp only [sumAmountsFor, List.map_cons, List.sum_cons, contrib, ht, hs, hst,
      if_true, if_pos rfl] at hsum ⊢
    omega

/-- Sample source slot after 40 tokens left it. -/
def srcAI60 : AccountInfo :=
  { key := 11, is_signer := false, owner := 7, lamports := 0,
    data := .tokenAccount
      { is_initialized := true, token := 13, owner := 10, amount := 60, state := 0 } }

/-- Sample destination slot after 40 tokens arrived. -/
def dstAI45 : AccountInfo :=
  { key := 12, is_signer := false, owner := 7, lamports := 0,
    data := .tokenAccount
      { is_initialized := true, token := 13, owner := 20, amount := 45, state := 0 } }

/-- Sample token with supply `5` (equal to the destination slot's balance,
for Mint conservation scenarios). -/
def mintTok : Token := { sampleTok with supply := 5 }

/-- Token slot holding `mintTok`. -/
def mintTokAI : AccountInfo :=
  { key := 13, is_signer := false, owner := 7, lamports := 0, data := .token mintTok }

/-- Sample token with supply `100` (equal to the source slot's balance,
for Burn conservation scenarios). -/
def burnTok : Token := { sampleTok with supply := 100 }

/-- Token slot holding `burnTok`. -/
def burnTokAI : AccountInfo :=
  { key := 13, is_signer := false, owner := 7, lamports := 0, data := .token burnTok }

/-- Witness for C1: concrete Transfer, ForcedTransfer, Mint and Burn
invocations on states satisfying the supply-equals-sum invariant preserve
it. -/
theorem C1_conservation_witness :
    (([ownerAI, srcAI60, dstAI45, tokAI, regAI, compAI] : List AccountInfo)[3]? = some tokAI ∧
      sumAmountsFor tokAI.key [ownerAI, srcAI60, dstAI45, tokAI, regAI, compAI] =
        sampleTok.supply) ∧
    (([agentAI, srcAI60, dstAI45, tokAI, regAI, compAI] : List AccountInfo)[3]? = some tokAI ∧
      sumAmountsFor tokAI.key [agentAI, srcAI60, dstAI45, tokAI, regAI, compAI] =
        sampleTok.supply) ∧
    (([agentAI, dstAI45,
        { mintTokAI with data := .token { mintTok with supply := mintTok.supply + 40 } },
        regAI] : List AccountInfo)[2]? =
        some { mintTokAI with data := .token { mintTok with supply := mintTok.supply + 40 } } ∧
      ([agentAI, dstAI45,
        { mintTokAI with data := .token { mintTok with supply := mintTok.supply + 40 } },
        regAI] : List AccountInfo)[1]? =
        some { dstAI with data := .tokenAccount { dstTA with amount := dstTA.amount + 40 } } ∧
      mintTok.supply + 40 = sumAmountsFor mintTokAI.key
        [agentAI, dstAI45,
          { mintTokAI with data := .token { mintTok with supply := mintTok.supply + 40 } },
          regAI]) ∧
    (([ownerAI, srcAI60,
        { burnTokAI with data := .token { burnTok with supply := burnTok.supply - 40 } }] :
          List AccountInfo)[2]? =
        some { burnTokAI with data := .token { burnTok with supply := burnTok.supply - 40 } } ∧
      ([ownerAI, srcAI60,
        { burnTokAI with data := .token { burnTok with supply := burnTok.supply - 40 } }] :
          List AccountInfo)[1]? =
        some { srcAI with data := .tokenAccount { srcTA with amount := srcTA.amount - 40 } } ∧
      burnTok.supply - 40 = sumAmountsFor burnTokAI.key
        [ownerAI, srcAI60,
          { burnTokAI with data := .token { burnTok with supply := burnTok.supply - 40 } }]) := by
  refine ⟨?_, ?_, ?_, ?_⟩
  · exact C1_conservation.1 ownerAI srcAI dstAI tokAI regAI compAI [] 40 samplePid
      [ownerAI, srcAI60, dstAI45, tokAI, regAI, compAI] sampleTok srcTA dstTA
      (by decide) (by decide) (by decide) (by decide) (by decide) (by decide) (by decide)
  · exact C1_conservation.2.1 agentAI srcAI dstAI tokAI regAI compAI [] 40 samplePid
      [agentAI, srcAI60, dstAI45, tokAI, regAI, compAI] sampleTok srcTA dstTA
      (by decide) (by decide) (by decide) (by decide) (by decide) (by decide) (by decide)
  · exact C1_conservation.2.2.1 agentAI dstAI mintTokAI regAI [] 40 samplePid
      [agentAI, dstAI45,
        { mintTokAI with data := .token { mintTok with supply := mintTok.supply + 40 } },
        regAI] mintTok dstTA
      (by decide) (by decide) (by decide) (by decide) (by decide)
  · exact C1_conservation.2.2.2 ownerAI srcAI burnTokAI [] 40 samplePid
      [ownerAI, srcAI60,
        { burnTokAI with data := .token { burnTok with supply := burnTok.supply - 40 } }]
      burnTok srcTA
      (by decide) (by decide) (by decide) (by decide) (by decide)

/-- Witness for C8: minting `u64::MAX` onto supply `105` fails and leaves
the accounts unchanged, and burning `200` from balance `100` fails and
leaves the accounts unchanged. -/
theorem C8_checked_arithmetic_witness :
    (∃ e, process_mint [agentAI, dstAI, tokAI, regAI] 18446744073709551615 samplePid =
      (.error e, [agentAI, dstAI, tokAI, regAI])) ∧
    (∃ e, process_burn [ownerAI, srcAI, tokAI] 200 samplePid =
      (.error e, [ownerAI, srcAI, tokAI])) := by
  constructor
  · exact C8_checked_arithmetic.1 agentAI dstAI tokAI regAI [] 18446744073709551615 samplePid
      sampleTok dstTA (by decide) (by decide) (by left; decide)
  · exact C8_checked_arithmetic.2 ownerAI srcAI tokAI [] 200 samplePid
      sampleTok srcTA (by decide) (by decide) (by right; decide)

set_option maxHeartbeats 1000000 in
/-- Forward evaluation of `process_transfer` when every gate passes. -/
theorem process_transfer_ok_eval
    {ownerI srcI dstI tokI regI compI : AccountInfo} {rest : List AccountInfo}
    {amount : Nat} {pid : Pubkey} {t : Token} {sa da : TokenAccount}
    {r : IdentityRegistry} {c : Compliance}
    (h1 : srcI.owner = pid) (h2 : dstI.owner = pid) (h3 : tokI.owner = pid)
    (h4 : ownerI.is_signer = true)
    (h5 : tokI.data = .token t) (h6 : t.is_initialized = true) (h7 : t.is_paused = false)
    (h8 : srcI.data = .tokenAccount sa) (h9 : sa.is_initialized = true)
    (h10 : dstI.data = .tokenAccount da) (h11 : da.is_initialized = true)
    (h12 : sa.owner = ownerI.key)
    (h13 : Nat.land sa.state ACCOUNT_FROZEN_FLAG = 0)
    (h14 : Nat.land da.state ACCOUNT_FROZEN_FLAG = 0)
    (h15 : regI.data = .registry r) (h16 : r.is_initialized = true)
    (h17 : compI.data = .compliance c) (h18 : c.is_initialized = true)
    (h19 : amount ≤ sa.amount)
    (h20 : da.amount + amount ≤ U64_MAX) :
    process_transfer (ownerI :: srcI :: dstI :: tokI :: regI :: compI :: rest) amount pid =
      (.ok (), ownerI ::
        { srcI with data := .tokenAccount { sa with amount := sa.amount - amount } } ::
        { dstI with data := .tokenAccount { da with amount := da.amount + amount } } ::
        tokI :: regI :: compI :: rest) := by
  have hu1 : unpackToken tokI.data = .ok t := by
    rw [h5]
    simp [unpackToken, h6]
  have hu2 : unpackTokenAccount srcI.data = .ok sa := by
    rw [h8]
    simp [unpackTokenAccount, h9]
  have hu3 : unpackTokenAccount dstI.data = .ok da := by
    rw [h10]
    simp [unpackTokenAccount, h11]
  have hu4 : unpackIdentityRegistry regI.data = .ok r := by
    rw [h15]
    simp [unpackIdentityRegistry, h16]
  have hu5 : unpackCompliance compI.data = .ok c := by
    rw [h17]
    simp [unpackCompliance, h18]
  rw [process_transfer.eq_def]
  simp only [List.getElem?_cons_zero, List.getElem?_cons_succ]
  rw [if_neg (by simp [h1, h2, h3])]
  rw [if_neg (by simp [h4])]
  rw [hu1]
  simp only []
  rw [hu2]
  simp only []
  rw [hu3]
  simp only []
  rw [if_neg (by simp [h7])]
  rw [if_neg (by simp [h12])]
  rw [if_neg (by simp [h13])]
  rw [if_neg (by simp [h14])]
  rw [hu4]
  simp only []
  rw [if_neg (by simp [IdentityRegistry.is_verified_address])]
  rw [if_neg (by simp [IdentityRegistry.is_verified_address])]
  rw [hu5]
  simp only []
  rw [if_neg (by simp [Compliance.check_transfer])]
  rw [if_neg (by omega)]
  rw [show checkedSub sa.amount amount = some (sa.amount - amount) from by simp [checkedSub, h19]]
  rw [show checkedAdd da.amount amount = some (da.amount + amount) from by simp [checkedAdd, h20]]
  simp only []
  simp [writeAccount, List.set]

set_option maxHeartbeats 1000000 in
/-- Forward evaluation of `process_transfer` when every gate up to the
balance check passes but the source balance is insufficient. -/
theorem process_transfer_insufficient_eval
    {ownerI srcI dstI tokI regI compI : AccountInfo} {rest : List AccountInfo}
    {amount : Nat} {pid : Pubkey} {t : Token} {sa da : TokenAccount}
    {r : IdentityRegistry} {c : Compliance}
    (h1 : srcI.owner = pid) (h2 : dstI.owner = pid) (h3 : tokI.owner = pid)
    (h4 : ownerI.is_signer = true)
    (h5 : tokI.data = .token t) (h6 : t.is_initialized = true) (h7 : t.is_paused = false)
    (h8 : srcI.data = .tokenAccount sa) (h9 : sa.is_initialized = true)
    (h10 : dstI.data = .tokenAccount da) (h11 : da.is_initialized = true)
    (h12 : sa.owner = ownerI.key)
    (h13 : Nat.land sa.state ACCOUNT_FROZEN_FLAG = 0)
    (h14 : Nat.land da.state ACCOUNT_FROZEN_FLAG = 0)
    (h15 : regI.data = .registry r) (h16 : r.is_initialized = true)
    (h17 : compI.data = .compliance c) (h18 : c.is_initialized = true)
    (h19 : sa.amount < amount) :
    process_transfer (ownerI :: srcI :: dstI :: tokI :: regI :: compI :: rest) amount pid =
      (.error (.custom .InsufficientFunds),
        ownerI :: srcI :: dstI :: tokI :: regI :: compI :: rest) := by
  have hu1 : unpackToken tokI.data = .ok t := by
    rw [h5]
    simp [unpackToken, h6]
  have hu2 : unpackTokenAccount srcI.data = .ok sa := by
    rw [h8]
    simp [unpackTokenAccount, h9]
  have hu3 : unpackTokenAccount dstI.data = .ok da := by
    rw [h10]
    simp [unpackTokenAccount, h11]
  have hu4 : unpackIdentityRegistry regI.data = .ok r := by
    rw [h15]
    simp [unpackIdentityRegistry, h16]
  have hu5 : unpackCompliance compI.data = .ok c := by
    rw [h17]
    simp [unpackCompliance, h18]
  rw [process_transfer.eq_def]
  simp only [List.getElem?_cons_zero, List.getElem?_cons_succ]
  rw [if_neg (by simp [h1, h2, h3])]
  rw [if_neg (by simp [h4])]
  rw [hu1]
  simp only []
  rw [hu2]
  simp only []
  rw [hu3]
  simp only []
  rw [if_neg (by simp [h7])]
  rw [if_neg (by simp [h12])]
  rw [if_neg (by simp [h13])]
  rw [if_neg (by simp [h14])]
  rw [hu4]
  simp only []
  rw [if_neg (by simp [IdentityRegistry.is_verified_address])]
  rw [if_neg (by simp [IdentityRegistry.is_verified_address])]
  rw [hu5]
  simp only []
  rw [if_neg (by simp [Compliance.check_transfer])]
  rw [if_pos h19]

set_option maxHeartbeats 1000000 in
/-- Forward evaluation of `process_forced_transfer` when every gate it
actually performs passes: no frozen-flag hypothesis is needed, because the
handler never consults the flags. -/
theorem process_forced_transfer_ok_eval
    {agentI srcI dstI tokI regI compI : AccountInfo} {rest : List AccountInfo}
    {amount : Nat} {pid : Pubkey} {t : Token} {sa da : TokenAccount} {ag : Agent}
    {r : IdentityRegistry} {c : Compliance}
    (h1 : srcI.owner = pid) (h2 : dstI.owner = pid) (h3 : tokI.owner = pid)
    (h4 : agentI.is_signer = true)
    (h5 : tokI.data = .token t) (h6 : t.is_initialized = true) (h7 : t.is_paused = false)
    (h8 : srcI.data = .tokenAccount sa) (h9 : sa.is_initialized = true)
    (h10 : dstI.data = .tokenAccount da) (h11 : da.is_initialized = true)
    (h12 : agentI.data = .agent ag) (h13 : ag.is_initialized = true)
    (h14 : ag.key = t.owner)
    (h15 : regI.data = .registry r) (h16 : r.is_initialized = true)
    (h17 : compI.data = .compliance c) (h18 : c.is_initialized = true)
    (h19 : amount ≤ sa.amount)
    (h20 : da.amount + amount ≤ U64_MAX) :
    process_forced_transfer (agentI :: srcI :: dstI :: tokI :: regI :: compI :: rest) amount pid =
      (.ok (), agentI ::
        { srcI with data := .tokenAccount { sa with amount := sa.amount - amount } } ::
        { dstI with data := .tokenAccount { da with amount := da.amount + amount } } ::
        tokI :: regI :: compI :: rest) := by
  have hu1 : unpackToken tokI.data = .ok t := by
    rw [h5]
    simp [unpackToken, h6]
  have hu2 : unpackTokenAccount srcI.data = .ok sa := by
    rw [h8]
    simp [unpackTokenAccount, h9]
  have hu3 : unpackTokenAccount dstI.data = .ok da := by
    rw [h10]
    simp [unpackTokenAccount, h11]
  have hu4 : unpackAgent agentI.data = .ok ag := by
    rw [h12]
    simp [unpackAgent, h13]
  have hu5 : unpackIdentityRegistry regI.data = .ok r := by
    rw [h15]
    simp [unpackIdentityRegistry, h16]
  have hu6 : unpackCompliance compI.data = .ok c := by
    rw [h17]
    simp [unpackCompliance, h18]
  rw [process_forced_transfer.eq_def]
  simp only [List.getElem?_cons_zero, List.getElem?_cons_succ]
  rw [if_neg (by simp [h1, h2, h3])]
  rw [if_neg (by simp [h4])]
  rw [hu1]
  simp only []
  rw [hu2]
  simp only []
  rw [hu3]
  simp only []
  rw [hu4]
  simp only []
  rw [if_neg (by simp [Token.is_agent, h14])]
  rw [if_neg (by simp [h7])]
  rw [hu5]
  simp only []
  rw [if_neg (by simp [IdentityRegistry.is_verified_address])]
  rw [if_neg (by simp [IdentityRegistry.is_verified_address])]
  rw [hu6]
  simp only []
  rw [if_neg (by simp [Compliance.check_transfer])]
  rw [if_neg (by omega)]
  rw [show checkedSub sa.amount amount = some (sa.amount - amount) from by simp [checkedSub, h19]]
  rw [show checkedAdd da.amount amount = some (da.amount + amount) from by simp [checkedAdd, h20]]
  simp only []
  simp [writeAccount, List.set]

set_option maxHeartbeats 1000000 in
/-- Forward evaluation of `process_forced_transfer` when the supplied
Agent record's key differs from the token owner: the invocation is
rejected with `InvalidAgent` and nothing is written. -/
theorem process_forced_transfer_invalid_agent_eval
    {agentI srcI dstI tokI regI compI : AccountInfo} {rest : List AccountInfo}
    {amount : Nat} {pid : Pubkey} {t : Token} {sa da : TokenAccount} {ag : Agent}
    (h1 : srcI.owner = pid) (h2 : dstI.owner = pid) (h3 : tokI.owner = pid)
    (h4 : agentI.is_signer = true)
    (h5 : tokI.data = .token t) (h6 : t.is_initialized = true)
    (h8 : srcI.data = .tokenAccount sa) (h9 : sa.is_initialized = true)
    (h10 : dstI.data = .tokenAccount da) (h11 : da.is_initialized = true)
    (h12 : agentI.data = .agent ag) (h13 : ag.is_initialized = true)
    (h14 : ag.key ≠ t.owner) :
    process_forced_transfer (agentI :: srcI :: dstI :: tokI :: regI :: compI :: rest) amount pid =
      (.error (.custom .InvalidAgent),
        agentI :: srcI :: dstI :: tokI :: regI :: compI :: rest) := by
  have hu1 : unpackToken tokI.data = .ok t := by
    rw [h5]
    simp [unpackToken, h6]
  have hu2 : unpackTokenAccount srcI.data = .ok sa := by
    rw [h8]
    simp [unpackTokenAccount, h9]
  have hu3 : unpackTokenAccount dstI.data = .ok da := by
    rw [h10]
    simp [unpackTokenAccount, h11]
  have hu4 : unpackAgent agentI.data = .ok ag := by
    rw [h12]
    simp [unpackAgent, h13]
  rw [process_forced_transfer.eq_def]
  simp only [List.getElem?_cons_zero, List.getElem?_cons_succ]
  rw [if_neg (by simp [h1, h2, h3])]
  rw [if_neg (by simp [h4])]
  rw [hu1]
  simp only []
  rw [hu2]
  simp only []
  rw [hu3]
  simp only []
  rw [hu4]
  simp only []
  rw [if_pos (by simp [Token.is_agent, h14])]

set_option maxHeartbeats 1000000 in
/-- Forward evaluation of `process_mint` when every gate passes. -/
theorem process_mint_ok_eval
    {agentI dstI tokI regI : AccountInfo} {rest : List AccountInfo}
    {amount : Nat} {pid : Pubkey} {t : Token} {da : TokenAccount} {ag : Agent}
    {r : IdentityRegistry}
    (h1 : dstI.owner = pid) (h2 : tokI.owner = pid)
    (h3 : agentI.is_signer = true)
    (h4 : tokI.data = .token t) (h5 : t.is_initialized = true) (h6 : t.is_paused = false)
    (h7 : dstI.data = .tokenAccount da) (h8 : da.is_initialized = true)
    (h9 : agentI.data = .agent ag) (h10 : ag.is_initialized = true)
    (h11 : ag.key = t.owner)
    (h12 : regI.data = .registry r) (h13 : r.is_initialized = true)
    (h14 : Nat.land da.state ACCOUNT_FROZEN_FLAG = 0)
    (h15 : t.supply + amount ≤ U64_MAX)
    (h16 : da.amount + amount ≤ U64_MAX) :
    process_mint (agentI :: dstI :: tokI :: regI :: rest) amount pid =
      (.ok (), agentI ::
        { dstI with data := .tokenAccount { da with amount := da.amount + amount } } ::
        { tokI with data := .token { t with supply := t.supply + amount } } ::
        regI :: rest) := by
  have hu1 : unpackToken tokI.data = .ok t := by
    rw [h4]
    simp [unpackToken, h5]
  have hu2 : unpackTokenAccount dstI.data = .ok da := by
    rw [h7]
    simp [unpackTokenAccount, h8]
  have hu3 : unpackAgent agentI.data = .ok ag := by
    rw [h9]
    simp [unpackAgent, h10]
  have hu4 : unpackIdentityRegistry regI.data = .ok r := by
    rw [h12]
    simp [unpackIdentityRegistry, h13]
  rw [process_mint.eq_def]
  simp only [List.getElem?_cons_zero, List.getElem?_cons_succ]
  rw [if_neg (by simp [h1, h2])]
  rw [if_neg (by simp [h3])]
  rw [hu1]
  simp only []
  rw [hu2]
  simp only []
  rw [hu3]
  simp only []
  rw [if_neg (by simp [Token.is_agent, h11])]
  rw [if_neg (by simp [h6])]
  rw [hu4]
  simp only []
  rw [if_neg (by simp [IdentityRegistry.is_verified_address])]
  rw [if_neg (by simp [h14])]
  rw [show checkedAdd t.supply amount = some (t.supply + amount) from by simp [checkedAdd, h15]]
  rw [show checkedAdd da.amount amount = some (da.amount + amount) from by simp [checkedAdd, h16]]
  simp only []
  simp [writeAccount, List.set]

set_option maxHeartbeats 1000000 in
/-- Forward evaluation of `process_mint` when the supplied Agent record's
key differs from the token owner: rejected with `InvalidAgent`. -/
theorem process_mint_invalid_agent_eval
    {agentI dstI tokI regI : AccountInfo} {rest : List AccountInfo}
    {amount : Nat} {pid : Pubkey} {t : Token} {da : TokenAccount} {ag : Agent}
    (h1 : dstI.owner = pid) (h2 : tokI.owner = pid)
    (h3 : agentI.is_signer = true)
    (h4 : tokI.data = .token t) (h5 : t.is_initialized = true)
    (h7 : dstI.data = .tokenAccount da) (h8 : da.is_initialized = true)
    (h9 : agentI.data = .agent ag) (h10 : ag.is_initialized = true)
    (h11 : ag.key ≠ t.owner) :
    process_mint (agentI :: dstI :: tokI :: regI :: rest) amount pid =
      (.error (.custom .InvalidAgent), agentI :: dstI :: tokI :: regI :: rest) := by
  have hu1 : unpackToken tokI.data = .ok t := by
    rw [h4]
    simp [unpackToken, h5]
  have hu2 : unpackTokenAccount dstI.data = .ok da := by
    rw [h7]
    simp [unpackTokenAccount, h8]
  have hu3 : unpackAgent agentI.data = .ok ag := by
    rw [h9]
    simp [unpackAgent, h10]
  rw [process_mint.eq_def]
  simp only [List.getElem?_cons_zero, List.getElem?_cons_succ]
  rw [if_neg (by simp [h1, h2])]
  rw [if_neg (by simp [h3])]
  rw [hu1]
  simp only []
  rw [hu2]
  simp only []
  rw [hu3]
  simp only []
  rw [if_pos (by simp [Token.is_agent, h11])]


/-- Source slot with the frozen flag (bit 0) set and balance `100`. -/
def frozenSrcAI : AccountInfo :=
  { key := 11, is_signer := false, owner := 7, lamports := 0,
    data := .tokenAccount
      { is_initialized := true, token := 13, owner := 10, amount := 100, state := 1 } }

/-- Destination slot holding the maximal `u64` balance. -/
def dstMaxAI : AccountInfo :=
  { key := 12, is_signer := false, owner := 7, lamports := 0,
    data := .tokenAccount
      { is_initialized := true, token := 13, owner := 20,
        amount := 18446744073709551615, state := 0 } }

/-- A signing account whose own address IS the token owner `50`, carrying
an Agent record naming that same key. -/
def ownerKeyAgentAI : AccountInfo :=
  { key := 50, is_signer := true, owner := 99, lamports := 0,
    data := .agent { is_initialized := true, key := 50 } }

/-- A signing account carrying an Agent record whose key `51` is NOT the
token owner. -/
def badAgentAI : AccountInfo :=
  { key := 42, is_signer := true, owner := 99, lamports := 0,
    data := .agent { is_initialized := true, key := 51 } }

/-- C2 (counterexample): a Transfer invocation in which every gate passes
and `source.amount ≥ amount` (source holds `100 ≥ 1`) nevertheless does
not return `Ok`: with the destination balance at `u64::MAX`, the checked
addition fails and the invocation aborts (`arithmeticPanic`), leaving all
accounts unchanged. -/
theorem C2_transfer_overflow_cex :
    1 ≤ srcTA.amount ∧
    process_transfer [ownerAI, srcAI, dstMaxAI, tokAI, regAI, compAI] 1 samplePid =
      (.error .arithmeticPanic, [ownerAI, srcAI, dstMaxAI, tokAI, regAI, compAI]) :=
  ⟨by decide, by decide⟩

/-- C2 (amended): when every gate passes, `source.amount ≥ amount` AND the
destination balance does not overflow, Transfer returns `Ok`, decreases the
source and increases the destination by exactly `amount`, and leaves the
token slot (hence the supply) unchanged; when the gates pass but
`source.amount < amount`, it fails with `InsufficientFunds` and changes
nothing. -/
theorem C2_transfer_correct :
    (∀ (ownerI srcI dstI tokI regI compI : AccountInfo) (rest : List AccountInfo)
        (amount : Nat) (pid : Pubkey) (t : Token) (sa da : TokenAccount)
        (r : IdentityRegistry) (c : Compliance),
      srcI.owner = pid → dstI.owner = pid → tokI.owner = pid →
      ownerI.is_signer = true →
      tokI.data = .token t → t.is_initialized = true → t.is_paused = false →
      srcI.data = .tokenAccount sa → sa.is_initialized = true →
      dstI.data = .tokenAccount da → da.is_initialized = true →
      sa.owner = ownerI.key →
      Nat.land sa.state ACCOUNT_FROZEN_FLAG = 0 →
      Nat.land da.state ACCOUNT_FROZEN_FLAG = 0 →
      regI.data = .registry r → r.is_initialized = true →
      compI.data = .compliance c → c.is_initialized = true →
      amount ≤ sa.amount →
      da.amount + amount ≤ U64_MAX →
      process_transfer (ownerI :: srcI :: dstI :: tokI :: regI :: compI :: rest) amount pid =
        (.ok (), ownerI ::
          { srcI with data := .tokenAccount { sa with amount := sa.amount - amount } } ::
          { dstI with data := .tokenAccount { da with amount := da.amount + amount } } ::
          tokI :: regI :: compI :: rest)) ∧
    (∀ (ownerI srcI dstI tokI regI compI : AccountInfo) (rest : List AccountInfo)
        (amount : Nat) (pid : Pubkey) (t : Token) (sa da : TokenAccount)
        (r : IdentityRegistry) (c : Compliance),
      srcI.owner = pid → dstI.owner = pid → tokI.owner = pid →
      ownerI.is_signer = true →
      tokI.data = .token t → t.is_initialized = true → t.is_paused = false →
      srcI.data = .tokenAccount sa → sa.is_initialized = true →
      dstI.data = .tokenAccount da → da.is_initialized = true →
      sa.owner = ownerI.key →
      Nat.land sa.state ACCOUNT_FROZEN_FLAG = 0 →
      Nat.land da.state ACCOUNT_FROZEN_FLAG = 0 →
      regI.data = .registry r → r.is_initialized = true →
      compI.data = .compliance c → c.is_initialized = true →
      sa.amount < amount →
      process_transfer (ownerI :: srcI :: dstI :: tokI :: regI :: compI :: rest) amount pid =
        (.error (.custom .InsufficientFunds),
          ownerI :: srcI :: dstI :: tokI :: regI :: compI :: rest)) := by
  constructor
  · intro ownerI srcI dstI tokI regI compI rest amount pid t sa da r c
      h1 h2 h3 h4 h5 h6 h7 h8 h9 h10 h11 h12 h13 h14 h15 h16 h17 h18 h19 h20
    exact process_transfer_ok_eval h1 h2 h3 h4 h5 h6 h7 h8 h9 h10 h11 h12 h13 h14 h15 h16
      h17 h18 h19 h20
  · intro ownerI srcI dstI tokI regI compI rest amount pid t sa da r c
      h1 h2 h3 h4 h5 h6 h7 h8 h9 h10 h11 h12 h13 h14 h15 h16 h17 h18 h19
    exact process_transfer_insufficient_eval h1 h2 h3 h4 h5 h6 h7 h8 h9 h10 h11 h12 h13 h14
      h15 h16 h17 h18 h19

/-- Witness for C2: Transfer of `40` moves `100/5` to `60/45` with the
token slot untouched, and Transfer of `200` fails with
`InsufficientFunds` leaving everything unchanged. -/
theorem C2_transfer_correct_witness :
    process_transfer [ownerAI, srcAI, dstAI, tokAI, regAI, compAI] 40 samplePid =
      (.ok (), [ownerAI,
        { srcAI with data := .tokenAccount { srcTA with amount := srcTA.amount - 40 } },
        { dstAI with data := .tokenAccount { dstTA with amount := dstTA.amount + 40 } },
        tokAI, regAI, compAI]) ∧
    process_transfer [ownerAI, srcAI, dstAI, tokAI, regAI, compAI] 200 samplePid =
      (.error (.custom .InsufficientFunds), [ownerAI, srcAI, dstAI, tokAI, regAI, compAI]) := by
  constructor
  · exact C2_transfer_correct.1 ownerAI srcAI dstAI tokAI regAI compAI [] 40 samplePid
      sampleTok srcTA dstTA regD compD (by decide) (by decide) (by decide) (by decide)
      (by decide) (by decide) (by decide) (by decide) (by decide) (by decide) (by decide)
      (by decide) (by decide) (by decide) (by decide) (by decide) (by decide) (by decide)
      (by decide) (by decide)
  · exact C2_transfer_correct.2 ownerAI srcAI dstAI tokAI regAI compAI [] 200 samplePid
      sampleTok srcTA dstTA regD compD (by decide) (by decide) (by decide) (by decide)
      (by decide) (by decide) (by decide) (by decide) (by decide) (by decide) (by decide)
      (by decide) (by decide) (by decide) (by decide) (by decide) (by decide) (by decide)
      (by decide)

/-- C3 (counterexample): a ForcedTransfer whose source account has the
frozen flag set does NOT fail with `AddressFrozen` — it succeeds and moves
the balance. -/
theorem C3_forced_frozen_cex :
    Nat.land 1 ACCOUNT_FROZEN_FLAG ≠ 0 ∧
    process_forced_transfer [agentAI, frozenSrcAI, dstAI, tokAI, regAI, compAI] 40 samplePid =
      (.ok (), [agentAI,
        { frozenSrcAI with data := .tokenAccount { is_initialized := true, token := 13, owner := 10, amount := 60, state := 1 } },
        { dstAI with data := .tokenAccount { is_initialized := true, token := 13, owner := 20, amount := 45, state := 0 } },
        tokAI, regAI, compAI]) :=
  ⟨by decide, by decide⟩

/-- C3 (amended): `process_forced_transfer` performs no frozen-flag check
at all: an invocation whose source or destination account is frozen, with
the gates the handler does perform passing, succeeds and moves the balance
exactly as if the accounts were not frozen. -/
theorem C3_forced_no_freeze_gate
    (agentI srcI dstI tokI regI compI : AccountInfo) (rest : List AccountInfo)
    (amount : Nat) (pid : Pubkey) (t : Token) (sa da : TokenAccount) (ag : Agent)
    (r : IdentityRegistry) (c : Compliance)
    (h1 : srcI.owner = pid) (h2 : dstI.owner = pid) (h3 : tokI.owner = pid)
    (h4 : agentI.is_signer = true)
    (h5 : tokI.data = .token t) (h6 : t.is_initialized = true) (h7 : t.is_paused = false)
    (h8 : srcI.data = .tokenAccount sa) (h9 : sa.is_initialized = true)
    (h10 : dstI.data = .tokenAccount da) (h11 : da.is_initialized = true)
    (h12 : agentI.data = .agent ag) (h13 : ag.is_initialized = true)
    (h14 : ag.key = t.owner)
    (h15 : regI.data = .registry r) (h16 : r.is_initialized = true)
    (h17 : compI.data = .compliance c) (h18 : c.is_initialized = true)
    (h19 : amount ≤ sa.amount)
    (h20 : da.amount + amount ≤ U64_MAX)
    (_hfrozen : Nat.land sa.state ACCOUNT_FROZEN_FLAG ≠ 0 ∨
      Nat.land da.state ACCOUNT_FROZEN_FLAG ≠ 0) :
    process_forced_transfer (agentI :: srcI :: dstI :: tokI :: regI :: compI :: rest)
        amount pid =
      (.ok (), agentI ::
        { srcI with data := .tokenAccount { sa with amount := sa.amount - amount } } ::
        { dstI with data := .tokenAccount { da with amount := da.amount + amount } } ::
        tokI :: regI :: compI :: rest) :=
  process_forced_transfer_ok_eval h1 h2 h3 h4 h5 h6 h7 h8 h9 h10 h11 h12 h13 h14 h15 h16
    h17 h18 h19 h20

/-- Witness for C3: the frozen-source forced transfer of `40` succeeds,
hypotheses discharged concretely. -/
theorem C3_forced_no_freeze_gate_witness :
    process_forced_transfer [agentAI, frozenSrcAI, dstAI, tokAI, regAI, compAI] 40 samplePid =
      (.ok (), [agentAI,
        { frozenSrcAI with data := .tokenAccount { is_initialized := true, token := 13, owner := 10, amount := 60, state := 1 } },
        { dstAI with data := .tokenAccount { dstTA with amount := dstTA.amount + 40 } },
        tokAI, regAI, compAI]) :=
  C3_forced_no_freeze_gate agentAI frozenSrcAI dstAI tokAI regAI compAI [] 40 samplePid
    sampleTok
    { is_initialized := true, token := 13, owner := 10, amount := 100, state := 1 }
    dstTA { is_initialized := true, key := 50 } regD compD
    (by decide) (by decide) (by decide) (by decide) (by decide) (by decide) (by decide)
    (by decide) (by decide) (by decide) (by decide) (by decide) (by decide) (by decide)
    (by decide) (by decide) (by decide) (by decide) (by decide) (by decide)
    (by left; decide)

/-- C6 (counterexample): the token owner is accepted by the agent gate on
the strength of ownership alone — `is_agent` holds of the owner key by
definition, `AddAgent` registers nothing (stub), and a Mint signed by the
owner address `50` presenting an Agent record naming `50` succeeds even
though no agent was ever registered. -/
theorem C6_owner_accepted_cex :
    Token.is_agent sampleTok sampleTok.owner = true ∧
    process_add_agent [ownerAI] samplePid = (.ok (), [ownerAI]) ∧
    process_mint [ownerKeyAgentAI, dstAI, tokAI, regAI] 40 samplePid =
      (.ok (), [ownerKeyAgentAI,
        { dstAI with data := .tokenAccount { is_initialized := true, token := 13, owner := 20, amount := 45, state := 0 } },
        { tokAI with data := .token { sampleTok with supply := 145 } },
        regAI]) :=
  ⟨by decide, by decide, by decide⟩

/-- C6 (amended): agent authorization collapses to token ownership —
Mint and ForcedTransfer reject with `InvalidAgent` exactly those
invocations whose presented Agent record's key differs from
`token.owner`; a record naming the token owner always passes the agent
gate (so owner and agent are not distinct roles in this code). -/
theorem C6_agent_gate_is_ownership :
    (∀ (agentI dstI tokI regI : AccountInfo) (rest : List AccountInfo)
        (amount : Nat) (pid : Pubkey) (t : Token) (da : TokenAccount) (ag : Agent),
      dstI.owner = pid → tokI.owner = pid → agentI.is_signer = true →
      tokI.data = .token t → t.is_initialized = true →
      dstI.data = .tokenAccount da → da.is_initialized = true →
      agentI.data = .agent ag → ag.is_initialized = true →
      ag.key ≠ t.owner →
      process_mint (agentI :: dstI :: tokI :: regI :: rest) amount pid =
        (.error (.custom .InvalidAgent), agentI :: dstI :: tokI :: regI :: rest)) ∧
    (∀ (agentI dstI tokI regI : AccountInfo) (rest : List AccountInfo)
        (amount : Nat) (pid : Pubkey) (t : Token) (da : TokenAccount) (ag : Agent)
        (r : IdentityRegistry),
      dstI.owner = pid → tokI.owner = pid → agentI.is_signer = true →
      tokI.data = .token t → t.is_initialized = true → t.is_paused = false →
      dstI.data = .tokenAccount da → da.is_initialized = true →
      agentI.data = .agent ag → ag.is_initialized = true →
      ag.key = t.owner →
      regI.data = .registry r → r.is_initialized = true →
      Nat.land da.state ACCOUNT_FROZEN_FLAG = 0 →
      t.supply + amount ≤ U64_MAX → da.amount + amount ≤ U64_MAX →
      process_mint (agentI :: dstI :: tokI :: regI :: rest) amount pid =
        (.ok (), agentI ::
          { dstI with data := .tokenAccount { da with amount := da.amount + amount } } ::
          { tokI with data := .token { t with supply := t.supply + amount } } ::
          regI :: rest)) ∧
    (∀ (agentI srcI dstI tokI regI compI : AccountInfo) (rest : List AccountInfo)
        (amount : Nat) (pid : Pubkey) (t : Token) (sa da : TokenAccount) (ag : Agent),
      srcI.owner = pid → dstI.owner = pid → tokI.owner = pid → agentI.is_signer = true →
      tokI.data = .token t → t.is_initialized = true →
      srcI.data = .tokenAccount sa → sa.is_initialized = true →
      dstI.data = .tokenAccount da → da.is_initialized = true →
      agentI.data = .agent ag → ag.is_initialized = true →
      ag.key ≠ t.owner →
      process_forced_transfer (agentI :: srcI :: dstI :: tokI :: regI :: compI :: rest)
          amount pid =
        (.error (.custom .InvalidAgent),
          agentI :: srcI :: dstI :: tokI :: regI :: compI :: rest)) := by
  refine ⟨?_, ?_, ?_⟩
  · intro agentI dstI tokI regI rest amount pid t da ag h1 h2 h3 h4 h5 h7 h8 h9 h10 h11
    exact process_mint_invalid_agent_eval h1 h2 h3 h4 h5 h7 h8 h9 h10 h11
  · intro agentI dstI tokI regI rest amount pid t da ag r h1 h2 h3 h4 h5 h6 h7 h8 h9 h10
      h11 h12 h13 h14 h15 h16
    exact process_mint_ok_eval h1 h2 h3 h4 h5 h6 h7 h8 h9 h10 h11 h12 h13 h14 h15 h16
  · intro agentI srcI dstI tokI regI compI rest amount pid t sa da ag h1 h2 h3 h4 h5 h6
      h7 h8 h9 h10 h11 h12 h13
    exact process_forced_transfer_invalid_agent_eval h1 h2 h3 h4 h5 h6 h7 h8 h9 h10 h11
      h12 h13

/-- Witness for C6: a wrong-key Agent record is rejected with
`InvalidAgent` by Mint and ForcedTransfer, and an owner-keyed record is
accepted by Mint. -/
theorem C6_agent_gate_is_ownership_witness :
    process_mint [badAgentAI, dstAI, tokAI, regAI] 40 samplePid =
      (.error (.custom .InvalidAgent), [badAgentAI, dstAI, tokAI, regAI]) ∧
    process_mint [agentAI, dstAI, tokAI, regAI] 40 samplePid =
      (.ok (), [agentAI,
        { dstAI with data := .tokenAccount { dstTA with amount := dstTA.amount + 40 } },
        { tokAI with data := .token { sampleTok with supply := sampleTok.supply + 40 } },
        regAI]) ∧
    process_forced_transfer [badAgentAI, srcAI, dstAI, tokAI, regAI, compAI] 40 samplePid =
      (.error (.custom .InvalidAgent), [badAgentAI, srcAI, dstAI, tokAI, regAI, compAI]) := by
  refine ⟨?_, ?_, ?_⟩
  · exact C6_agent_gate_is_ownership.1 badAgentAI dstAI tokAI regAI [] 40 samplePid
      sampleTok dstTA { is_initialized := true, key := 51 }
      (by decide) (by decide) (by decide) (by decide) (by decide) (by decide) (by decide)
      (by decide) (by decide) (by decide)
  · exact C6_agent_gate_is_ownership.2.1 agentAI dstAI tokAI regAI [] 40 samplePid
      sampleTok dstTA { is_initialized := true, key := 50 } regD
      (by decide) (by decide) (by decide) (by decide) (by decide) (by decide) (by decide)
      (by decide) (by decide) (by decide) (by decide) (by decide) (by decide) (by decide)
      (by decide) (by decide)
  · exact C6_agent_gate_is_ownership.2.2 badAgentAI srcAI dstAI tokAI regAI compAI [] 40
      samplePid sampleTok srcTA dstTA { is_initialized := true, key := 51 }
      (by decide) (by decide) (by decide) (by decide) (by decide) (by decide) (by decide)
      (by decide) (by decide) (by decide) (by decide) (by decide) (by decide)

/-- C10: the agent-authorization outcome of Mint and ForcedTransfer
depends only on the `key` field inside the supplied Agent record, never on
the signing account's own address: for EVERY signer address `k`, a
well-formed Agent record whose key equals `token.owner` passes agent
authorization (the invocation proceeds to success when the remaining
gates pass), and one whose key differs is rejected with `InvalidAgent` —
again for every `k`. -/
theorem C10_agent_check_key_only :
    (∀ (k w l : Nat) (ag : Agent) (dstI tokI regI : AccountInfo) (rest : List AccountInfo)
        (amount : Nat) (pid : Pubkey) (t : Token) (da : TokenAccount) (r : IdentityRegistry),
      dstI.owner = pid → tokI.owner = pid →
      tokI.data = .token t → t.is_initialized = true → t.is_paused = false →
      dstI.data = .tokenAccount da → da.is_initialized = true →
      ag.is_initialized = true → ag.key = t.owner →
      regI.data = .registry r → r.is_initialized = true →
      Nat.land da.state ACCOUNT_FROZEN_FLAG = 0 →
      t.supply + amount ≤ U64_MAX → da.amount + amount ≤ U64_MAX →
      process_mint
          ({ key := k, is_signer := true, owner := w, lamports := l, data := .agent ag } ::
            dstI :: tokI :: regI :: rest) amount pid =
        (.ok (), { key := k, is_signer := true, owner := w, lamports := l, data := .agent ag } ::
          { dstI with data := .tokenAccount { da with amount := da.amount + amount } } ::
          { tokI with data := .token { t with supply := t.supply + amount } } ::
          regI :: rest)) ∧
    (∀ (k w l : Nat) (ag : Agent) (dstI tokI regI : AccountInfo) (rest : List AccountInfo)
        (amount : Nat) (pid : Pubkey) (t : Token) (da : TokenAccount),
      dstI.owner = pid → tokI.owner = pid →
      tokI.data = .token t → t.is_initialized = true →
      dstI.data = .tokenAccount da → da.is_initialized = true →
      ag.is_initialized = true → ag.key ≠ t.owner →
      process_mint
          ({ key := k, is_signer := true, owner := w, lamports := l, data := .agent ag } ::
            dstI :: tokI :: regI :: rest) amount pid =
        (.error (.custom .InvalidAgent),
          { key := k, is_signer := true, owner := w, lamports := l, data := .agent ag } ::
            dstI :: tokI :: regI :: rest)) ∧
    (∀ (k w l : Nat) (ag : Agent) (srcI dstI tokI regI compI : AccountInfo)
        (rest : List AccountInfo) (amount : Nat) (pid : Pubkey) (t : Token)
        (sa da : TokenAccount) (r : IdentityRegistry) (c : Compliance),
      srcI.owner = pid → dstI.owner = pid → tokI.owner = pid →
      tokI.data = .token t → t.is_initialized = true → t.is_paused = false →
      srcI.data = .tokenAccount sa → sa.is_initialized = true →
      dstI.data = .tokenAccount da → da.is_initialized = true →
      ag.is_initialized = true → ag.key = t.owner →
      regI.data = .registry r → r.is_initialized = true →
      compI.data = .compliance c → c.is_initialized = true →
      amount ≤ sa.amount → da.amount + amount ≤ U64_MAX →
      process_forced_transfer
          ({ key := k, is_signer := true, owner := w, lamports := l, data := .agent ag } ::
            srcI :: dstI :: tokI :: regI :: compI :: rest) amount pid =
        (.ok (), { key := k, is_signer := true, owner := w, lamports := l, data := .agent ag } ::
          { srcI with data := .tokenAccount { sa with amount := sa.amount - amount } } ::
          { dstI with data := .tokenAccount { da with amount := da.amount + amount } } ::
          tokI :: regI :: compI :: rest)) ∧
    (∀ (k w l : Nat) (ag : Agent) (srcI dstI tokI regI compI : AccountInfo)
        (rest : List AccountInfo) (amount : Nat) (pid : Pubkey) (t : Token)
        (sa da : TokenAccount),
      srcI.owner = pid → dstI.owner = pid → tokI.owner = pid →
      tokI.data = .token t → t.is_initialized = true →
      srcI.data = .tokenAccount sa → sa.is_initialized = true →
      dstI.data = .tokenAccount da → da.is_initialized = true →
      ag.is_initialized = true → ag.key ≠ t.owner →
      process_forced_transfer
          ({ key := k, is_signer := true, owner := w, lamports := l, data := .agent ag } ::
            srcI :: dstI :: tokI :: regI :: compI :: rest) amount pid =
        (.error (.custom .InvalidAgent),
          { key := k, is_signer := true, owner := w, lamports := l, data := .agent ag } ::
            srcI :: dstI :: tokI :: regI :: compI :: rest)) := by
  refine ⟨?_, ?_, ?_, ?_⟩
  · intro k w l ag dstI tokI regI rest amount pid t da r h1 h2 h4 h5 h6 h7 h8 h10 h11 h12
      h13 h14 h15 h16
    exact process_mint_ok_eval h1 h2 rfl h4 h5 h6 h7 h8 rfl h10 h11 h12 h13 h14 h15 h16
  · intro k w l ag dstI tokI regI rest amount pid t da h1 h2 h4 h5 h7 h8 h10 h11
    exact process_mint_invalid_agent_eval h1 h2 rfl h4 h5 h7 h8 rfl h10 h11
  · intro k w l ag srcI dstI tokI regI compI rest amount pid t sa da r c h1 h2 h3 h5 h6 h7
      h8 h9 h10 h11 h13 h14 h15 h16 h17 h18 h19 h20
    exact process_forced_transfer_ok_eval h1 h2 h3 rfl h5 h6 h7 h8 h9 h10 h11 rfl h13 h14
      h15 h16 h17 h18 h19 h20
  · intro k w l ag srcI dstI tokI regI compI rest amount pid t sa da h1 h2 h3 h5 h6 h8 h9
      h10 h11 h13 h14
    exact process_forced_transfer_invalid_agent_eval h1 h2 h3 rfl h5 h6 h8 h9 h10 h11 rfl
      h13 h14

/-- Witness for C10: with an arbitrary signer address `77` never appearing
anywhere in the token state, an owner-keyed Agent record passes (Mint and
ForcedTransfer succeed) and a wrong-keyed record is rejected. -/
theorem C10_agent_check_key_only_witness :
    process_mint
        ({ key := 77, is_signer := true, owner := 99, lamports := 0, data := .agent { is_initialized := true, key := 50 } } :: [dstAI, tokAI, regAI]) 40 samplePid =
      (.ok (), { key := 77, is_signer := true, owner := 99, lamports := 0, data := .agent { is_initialized := true, key := 50 } } ::
        [{ dstAI with data := .tokenAccount { dstTA with amount := dstTA.amount + 40 } },
          { tokAI with data := .token { sampleTok with supply := sampleTok.supply + 40 } },
          regAI]) ∧
    process_mint
        ({ key := 77, is_signer := true, owner := 99, lamports := 0, data := .agent { is_initialized := true, key := 51 } } :: [dstAI, tokAI, regAI]) 40 samplePid =
      (.error (.custom .InvalidAgent),
        { key := 77, is_signer := true, owner := 99, lamports := 0, data := .agent { is_initialized := true, key := 51 } } :: [dstAI, tokAI, regAI]) := by
  constructor
  · exact C10_agent_check_key_only.1 77 99 0 { is_initialized := true, key := 50 }
      dstAI tokAI regAI [] 40 samplePid sampleTok dstTA regD
      (by decide) (by decide) (by decide) (by decide) (by decide) (by decide) (by decide)
      (by decide) (by decide) (by decide) (by decide) (by decide) (by decide) (by decide)
  · exact C10_agent_check_key_only.2.1 77 99 0 { is_initialized := true, key := 51 }
      dstAI tokAI regAI [] 40 samplePid sampleTok dstTA
      (by decide) (by decide) (by decide) (by decide) (by decide) (by decide) (by decide)
      (by decide)

end Erc3643
